import Mathlib

/-!
Verification of the matching / conflict-resolution core of the
Drone-Operations-Coordinator agent.

Shallow embedding conventions:
* calendar dates are day numbers (`ℤ`); a field that Python may leave as
  `None` is an `Option`;
* currency amounts and scores (Python floats) are rationals (`ℚ`);
* Python dictionaries keyed by mission id are association lists
  (`List (String × _)`) with first-match lookup and in-place update;
* wall-clock timestamps (`datetime.now()`) and `print` calls are
  nondeterministic I/O and are omitted from the embedding;
* a Python function that can raise an uncaught exception is embedded as
  `Except String _`, the error string naming the exception;
* the Google-Sheets write (an external collaborator) is passed in as a
  boolean outcome, mirroring how the core only inspects its success flag.

Entity records follow `src/models/{pilot,drone,mission}.py`.  The engine
modules additionally read a second, richer attribute naming convention
(`mission.id`, `mission.budget`, `pilot.daily_rate`, `drone.id`, ...);
the repository carries a parallel richer model shape that is not part of
the provided sources, so those accessors are modelled from the spec as
aliases of the corresponding parsed fields (each is marked below).
-/

/-- Python `round` on floats rounds half to even (banker's rounding);
this is its exact counterpart on `ℚ`, returning an integer. -/
def roundHalfEven (x : ℚ) : ℤ :=
  if x - (⌊x⌋ : ℚ) < 1/2 then ⌊x⌋
  else if 1/2 < x - (⌊x⌋ : ℚ) then ⌊x⌋ + 1
  else if ⌊x⌋ % 2 = 0 then ⌊x⌋ else ⌊x⌋ + 1

/-- Python `round(x, 2)`: round to two decimal places, half to even. -/
def round2 (x : ℚ) : ℚ := (roundHalfEven (x * 100) : ℚ) / 100

/-! ## `src/utils/data_parser.py` -/

/-- `data_parser.dates_overlap`: inclusive date ranges overlap iff
`start1 <= end2 and start2 <= end1`; any missing (`None`) endpoint makes
the ranges count as non-overlapping (`if not all([...]): return False`). -/
def dates_overlap (start1 end1 start2 end2 : Option ℤ) : Bool :=
  match start1, end1, start2, end2 with
  | some s1, some e1, some s2, some e2 => decide (s1 ≤ e2) && decide (s2 ≤ e1)
  | _, _, _, _ => false

/-- `data_parser.calculate_duration_days`: inclusive day count,
`0` when either endpoint is missing. -/
def calculate_duration_days (start_date end_date : Option ℤ) : ℤ :=
  match start_date, end_date with
  | some s, some e => (e - s) + 1
  | _, _ => 0

/-- `data_parser.validate_date_range`. -/
def validate_date_range (start_date end_date : Option ℤ) : Bool :=
  match start_date, end_date with
  | some s, some e => decide (s ≤ e)
  | _, _ => false

/-! ## `src/utils/cost_utils.py` -/

/-- `cost_utils.calculate_pilot_cost`: `daily_rate * duration`, clamped
to `0.0` when either input is negative. -/
def calculate_pilot_cost (daily_rate : ℚ) (mission_duration_days : ℤ) : ℚ :=
  if daily_rate < 0 ∨ mission_duration_days < 0 then 0
  else daily_rate * (mission_duration_days : ℚ)

/-- `cost_utils.is_within_budget`: `required_cost <= mission_budget`,
`False` when either amount is negative. -/
def is_within_budget (mission_budget required_cost : ℚ) : Bool :=
  if mission_budget < 0 ∨ required_cost < 0 then false
  else decide (required_cost ≤ mission_budget)

/-! ## `src/models/pilot.py` -/

/-- `models.pilot.Pilot` dataclass. -/
structure Pilot where
  pilot_id : String
  name : String
  location : String
  skills : List String
  certifications : List String
  status : String
  current_assignment : Option String
  available_from : Option String
  daily_rate_inr : ℚ
deriving DecidableEq

/-- Modelled from the spec: the richer parallel Pilot shape (spec §3, §9)
exposes the daily cost rate as `pilot.daily_rate`, read by the decision
and conflict engines; it denotes the same value as `daily_rate_inr`. -/
def Pilot.daily_rate (p : Pilot) : ℚ := p.daily_rate_inr

/-- `Pilot.is_available`. -/
def Pilot.is_available (p : Pilot) : Bool := p.status == "Available"

/-- `Pilot.has_all_skills`. -/
def Pilot.has_all_skills (p : Pilot) (required_skills : List String) : Bool :=
  required_skills.all (fun s => p.skills.contains s)

/-- `Pilot.has_all_certifications`. -/
def Pilot.has_all_certifications (p : Pilot) (required_certs : List String) : Bool :=
  required_certs.all (fun c => p.certifications.contains c)

/-! ## `src/models/drone.py` -/

/-- `models.drone.Drone` dataclass. -/
structure Drone where
  drone_id : String
  model : String
  location : String
  status : String
  capabilities : String
  weather_resistance : String
  maintenance_due : ℤ
  current_assignment : String
deriving DecidableEq

/-- Modelled from the spec: the richer parallel Drone shape (spec §3, §9)
exposes the drone identity as `drone.id`; alias of `drone_id`. -/
def Drone.id (d : Drone) : String := d.drone_id

/-- Modelled from the spec: richer-shape accessor `drone.weather_rating`,
alias of the parsed `weather_resistance` field. -/
def Drone.weather_rating (d : Drone) : String := d.weather_resistance

/-- Modelled from the spec: richer-shape accessor `drone.maintenance_hours`
(outstanding maintenance hours, spec §3), alias of `maintenance_due`. -/
def Drone.maintenance_hours (d : Drone) : ℤ := d.maintenance_due

/-- `Drone.is_available`. -/
def Drone.is_available (d : Drone) : Bool := d.status == "Available"

/-! ## `src/models/mission.py` -/

/-- `models.mission.Mission` dataclass. -/
structure Mission where
  project_id : String
  client : String
  location : String
  start_date : Option ℤ
  end_date : Option ℤ
  required_skills : List String
  required_certs : List String
  mission_budget_inr : ℚ
  priority : String
  status : String
  assigned_pilot : Option String
  assigned_drone : Option String
  weather_forecast : Option String
deriving DecidableEq

/-- Modelled from the spec: the richer parallel Mission shape (spec §3, §9)
exposes the mission identity as `mission.id`; alias of `project_id`. -/
def Mission.id (m : Mission) : String := m.project_id

/-- Modelled from the spec: richer-shape display name used only inside
human-readable messages; the spec gives missions a single identity, so it
is modelled as that identity. -/
def Mission.name (m : Mission) : String := m.project_id

/-- Modelled from the spec: richer-shape accessor `mission.budget`
(budget in currency units, spec §3), alias of `mission_budget_inr`. -/
def Mission.budget (m : Mission) : ℚ := m.mission_budget_inr

/-- Modelled from the spec: richer-shape accessor
`mission.required_certifications`, denoting the same required
certifications set as the parsed `required_certs` field. -/
def Mission.required_certifications (m : Mission) : List String := m.required_certs

/-- `Mission.is_unassigned`. -/
def Mission.is_unassigned (m : Mission) : Bool := m.status == "Unassigned"

/-- `Mission.is_high_priority`. -/
def Mission.is_high_priority (m : Mission) : Bool := m.priority == "High"

/-- `Mission.overlaps_with`. -/
def Mission.overlaps_with (m other : Mission) : Bool :=
  dates_overlap m.start_date m.end_date other.start_date other.end_date

/-- `Mission.get_duration_days`. -/
def Mission.get_duration_days (m : Mission) : ℤ :=
  calculate_duration_days m.start_date m.end_date

/-- The inline duration expression
`(mission.end_date - mission.start_date).days + 1` used by the decision
and conflict engines; unlike `calculate_duration_days` it raises a
`TypeError` when either date is `None`. -/
def mission_duration_raw (m : Mission) : Except String ℤ :=
  match m.start_date, m.end_date with
  | some s, some e => .ok ((e - s) + 1)
  | _, _ => .error "TypeError: unsupported operand type for date subtraction on None"

/-! ## `src/agent/conflict_engine.py`

Conflicts are Python dictionaries with a per-check set of keys; they are
embedded as a single record whose optional fields are `none` for keys the
check in question does not emit.  Human-readable `message` strings are
reproduced up to Python `repr` punctuation of embedded lists.
-/

/-- One colliding mission inside a `DOUBLE_BOOKING` conflict
(`{"mission_id", "mission_name", "start", "end"}`; the source stringifies
the two dates, kept here as values). -/
structure OverlapRef where
  mission_id : String
  mission_name : String
  start_date : Option ℤ
  end_date : Option ℤ
deriving DecidableEq

/-- A conflict value as built by `ConflictEngine` (`type`, `severity`,
`message`, `code` plus check-specific detail keys). -/
structure Conflict where
  type : String
  severity : String
  message : String
  code : String
  pilot : Option String := none
  drone : Option String := none
  mission : Option String := none
  missing : Option (List String) := none
  cost : Option ℚ := none
  budget : Option ℚ := none
  overage : Option ℚ := none
  overage_percent : Option ℚ := none
  conflicts : Option (List OverlapRef) := none
  maintenance_hours : Option ℤ := none
  pilot_location : Option String := none
  mission_location : Option String := none
deriving DecidableEq

/-- `ConflictEngine.check_pilot_availability`. -/
def check_pilot_availability (p : Pilot) : Option Conflict :=
  if ¬ p.is_available then
    some { type := "AVAILABILITY", severity := "CRITICAL",
           message := "Pilot " ++ p.name ++ " is " ++ p.status,
           code := "PILOT_NOT_AVAILABLE", pilot := some p.name }
  else none

/-- `ConflictEngine.check_skills_match`. -/
def check_skills_match (p : Pilot) (m : Mission) : Option Conflict :=
  let missing_skills := m.required_skills.filter (fun s => ¬ p.skills.contains s)
  if ¬ missing_skills.isEmpty then
    some { type := "SKILLS", severity := "CRITICAL",
           message := "Pilot " ++ p.name ++ " missing skills: " ++ String.intercalate ", " missing_skills,
           code := "SKILL_MISMATCH", pilot := some p.name,
           mission := some m.id, missing := some missing_skills }
  else none

/-- `ConflictEngine.check_certifications_match`. -/
def check_certifications_match (p : Pilot) (m : Mission) : Option Conflict :=
  let missing_certs := m.required_certifications.filter (fun c => ¬ p.certifications.contains c)
  if ¬ missing_certs.isEmpty then
    some { type := "CERTIFICATIONS", severity := "CRITICAL",
           message := "Pilot " ++ p.name ++ " missing certs: " ++ String.intercalate ", " missing_certs,
           code := "CERT_MISMATCH", pilot := some p.name,
           mission := some m.id, missing := some missing_certs }
  else none

/-- `ConflictEngine.check_pilot_budget`: computes the inclusive duration by
raw date subtraction (`TypeError` on a missing date) and, in the
over-budget branch, divides by `mission.budget` (`ZeroDivisionError` when
the budget is zero). -/
def check_pilot_budget (p : Pilot) (m : Mission) : Except String (Option Conflict) :=
  match mission_duration_raw m with
  | .error e => .error e
  | .ok duration =>
    let cost := calculate_pilot_cost p.daily_rate duration
    if ¬ is_within_budget m.budget cost then
      if m.budget = 0 then .error "ZeroDivisionError: division by zero"
      else
        let budget_pct := (cost / m.budget) * 100
        .ok (some { type := "BUDGET", severity := "HIGH",
                    message := "Pilot " ++ p.name ++ " cost exceeds mission budget",
                    code := "BUDGET_OVERRUN", pilot := some p.name,
                    mission := some m.id, cost := some cost,
                    budget := some m.budget, overage := some (cost - m.budget),
                    overage_percent := some (round2 (budget_pct - 100)) })
    else .ok none

/-- `ConflictEngine.check_date_overlap`: collects every other mission
(by id) whose date range overlaps; `other_missions = None` (embedded as
the empty list, which Python treats identically via falsiness) yields no
conflict. -/
def check_date_overlap (p : Pilot) (m : Mission) (other_missions : List Mission) :
    Option Conflict :=
  if other_missions.isEmpty then none
  else
    let colliding := (other_missions.filter
      (fun om => om.id ≠ m.id ∧
        dates_overlap m.start_date m.end_date om.start_date om.end_date)).map
      (fun om => OverlapRef.mk om.id om.name om.start_date om.end_date)
    if ¬ colliding.isEmpty then
      some { type := "DOUBLE_BOOKING", severity := "CRITICAL",
             message := "Pilot " ++ p.name ++ " has schedule conflicts",
             code := "DATE_OVERLAP", pilot := some p.name,
             mission := some m.id, conflicts := some colliding }
    else none

/-- `ConflictEngine.check_location_mismatch`. -/
def check_location_mismatch (p : Pilot) (m : Mission) : Option Conflict :=
  if p.location ≠ m.location then
    some { type := "LOCATION", severity := "WARNING",
           message := "Pilot in " ++ p.location ++ ", mission in " ++ m.location,
           code := "LOCATION_MISMATCH", pilot := some p.name,
           pilot_location := some p.location, mission_location := some m.location }
  else none

/-- `ConflictEngine.check_drone_availability`. -/
def check_drone_availability (d : Drone) : Option Conflict :=
  if ¬ d.is_available then
    some { type := "AVAILABILITY", severity := "CRITICAL",
           message := "Drone " ++ d.id ++ " is " ++ d.status,
           code := "DRONE_NOT_AVAILABLE", drone := some d.id }
  else none

/-- `ConflictEngine.check_drone_maintenance`. -/
def check_drone_maintenance (d : Drone) (_m : Mission) : Option Conflict :=
  if d.maintenance_hours > 0 then
    some { type := "MAINTENANCE", severity := "HIGH",
           message := "Drone " ++ d.id ++ " requires maintenance",
           code := "MAINTENANCE_REQUIRED", drone := some d.id,
           maintenance_hours := some d.maintenance_hours }
  else none

/-- `ConflictEngine.check_drone_date_overlap`. -/
def check_drone_date_overlap (d : Drone) (m : Mission) (other_missions : List Mission) :
    Option Conflict :=
  if other_missions.isEmpty then none
  else
    let colliding := (other_missions.filter
      (fun om => om.id ≠ m.id ∧
        dates_overlap m.start_date m.end_date om.start_date om.end_date)).map
      (fun om => OverlapRef.mk om.id om.name om.start_date om.end_date)
    if ¬ colliding.isEmpty then
      some { type := "DOUBLE_BOOKING", severity := "CRITICAL",
             message := "Drone " ++ d.id ++ " has schedule conflicts",
             code := "DRONE_DATE_OVERLAP", drone := some d.id,
             mission := some m.id, conflicts := some colliding }
    else none

/-- `ConflictEngine.check_weather_compatibility`: a deliberate stub,
always no conflict. -/
def check_weather_compatibility (_d : Drone) (_m : Mission) : Option Conflict :=
  none

/-- `ConflictEngine.check_pilot_assignment`: availability first (fail-fast
with a single conflict), then skills, certifications, budget (which can
raise, propagated), schedule overlap, and the location warning. -/
def check_pilot_assignment (p : Pilot) (m : Mission) (other_missions : List Mission) :
    Except String (List Conflict) :=
  match check_pilot_availability p with
  | some availability => .ok [availability]
  | none =>
    match check_pilot_budget p m with
    | .error e => .error e
    | .ok budget =>
      .ok ((check_skills_match p m).toList ++
           (check_certifications_match p m).toList ++
           budget.toList ++
           (check_date_overlap p m other_missions).toList ++
           (check_location_mismatch p m).toList)

/-- `ConflictEngine.check_drone_assignment`: availability fail-fast, then
maintenance, schedule overlap and the (stubbed) weather check. -/
def check_drone_assignment (d : Drone) (m : Mission) (other_missions : List Mission) :
    List Conflict :=
  match check_drone_availability d with
  | some availability => [availability]
  | none =>
    (check_drone_maintenance d m).toList ++
    (check_drone_date_overlap d m other_missions).toList ++
    (check_weather_compatibility d m).toList

/-! ## `src/agent/decision_engine.py` -/

/-- Stable insertion used to embed Python's ascending `list.sort(key=...)`:
an element is placed after every element whose key is `≤` its own. -/
def insertAscBy (key : α → ℚ) (x : α) : List α → List α
  | [] => [x]
  | y :: ys => if key y ≤ key x then y :: insertAscBy key x ys else x :: y :: ys

/-- Python `list.sort(key=...)` (ascending, stable). -/
def sortAscBy (key : α → ℚ) (l : List α) : List α :=
  l.foldr (insertAscBy key) []

/-- Stable insertion for Python's `list.sort(key=..., reverse=True)`. -/
def insertDescBy (key : α → ℚ) (x : α) : List α → List α
  | [] => [x]
  | y :: ys => if key x ≤ key y then y :: insertDescBy key x ys else x :: y :: ys

/-- Python `list.sort(key=..., reverse=True)` (descending, stable). -/
def sortDescBy (key : α → ℚ) (l : List α) : List α :=
  l.foldr (insertDescBy key) []

/-- Skill component of `DecisionEngine._calculate_pilot_score`:
overlap fraction × 40, full 40 points when no skill is required. -/
def pilot_skill_score (p : Pilot) (m : Mission) : ℚ :=
  let matching_skills := (m.required_skills.filter (fun s => p.skills.contains s)).length
  if m.required_skills ≠ [] then
    ((matching_skills : ℚ) / (m.required_skills.length : ℚ)) * 40
  else 40

/-- Certification component of `DecisionEngine._calculate_pilot_score`:
overlap fraction × 30, full 30 points when none is required. -/
def pilot_cert_score (p : Pilot) (m : Mission) : ℚ :=
  let matching_certs := (m.required_certifications.filter (fun c => p.certifications.contains c)).length
  if m.required_certifications ≠ [] then
    ((matching_certs : ℚ) / (m.required_certifications.length : ℚ)) * 30
  else 30

/-- Cost-efficiency component of `DecisionEngine._calculate_pilot_score`:
`(1 - min(cost / max(budget, 1), 1.0)) * 20`. -/
def pilot_cost_score (m : Mission) (cost : ℚ) : ℚ :=
  (1 - min (cost / max m.budget 1) 1) * 20

/-- Location component of `DecisionEngine._calculate_pilot_score`. -/
def pilot_location_score (p : Pilot) (m : Mission) : ℚ :=
  if p.location = m.location then 10 else 5

/-- `DecisionEngine._calculate_pilot_score` (0-100, rounded to 2 decimals). -/
def calculate_pilot_score (p : Pilot) (m : Mission) (cost : ℚ) : ℚ :=
  round2 (pilot_skill_score p m + pilot_cert_score p m +
          pilot_cost_score m cost + pilot_location_score p m)

/-- The `weather_ratings` lookup table of
`DecisionEngine._calculate_drone_score`, defaulting to 15. -/
def weather_rating_score (rating : String) : ℚ :=
  if rating = "IP20" then 10
  else if rating = "IP45" then 20
  else if rating = "IP54" then 25
  else if rating = "IP67" then 30
  else if rating = "Waterproof" then 30
  else 15

/-- Location component of `DecisionEngine._calculate_drone_score`. -/
def drone_location_score (d : Drone) (m : Mission) : ℚ :=
  if d.location = m.location then 20 else 10

/-- `DecisionEngine._calculate_drone_score`: flat 50 capability points +
weather tier + location bonus, rounded to 2 decimals. -/
def calculate_drone_score (d : Drone) (m : Mission) : ℚ :=
  round2 (50 + weather_rating_score d.weather_rating + drone_location_score d m)

/-- One entry of the list returned by `DecisionEngine.match_pilots`. -/
structure PilotCandidate where
  pilot : Pilot
  cost : ℚ
  score : ℚ
  match_percentage : ℚ
deriving DecidableEq

/-- One entry of the list returned by `DecisionEngine.match_drones`. -/
structure DroneCandidate where
  drone : Drone
  score : ℚ
  match_percentage : ℚ
deriving DecidableEq

/-- `DecisionEngine._check_weather_compatibility`: stubbed to always true. -/
def decision_weather_compatible (_d : Drone) (_m : Mission) : Bool := true

/-- Filter pass of `DecisionEngine.match_pilots` (before sorting): rejects
on availability, skills, certifications, schedule overlap with the
`assigned_pilots` map (pilot name → other mission), then computes the raw
inclusive-duration cost (`TypeError` on missing dates) and rejects
over-budget candidates. -/
def match_pilots_pass (m : Mission) (assigned_pilots : List (String × Mission)) :
    List Pilot → Except String (List PilotCandidate)
  | [] => .ok []
  | p :: rest =>
    if ¬ p.is_available then match_pilots_pass m assigned_pilots rest
    else if ¬ p.has_all_skills m.required_skills then match_pilots_pass m assigned_pilots rest
    else if ¬ p.has_all_certifications m.required_certs then match_pilots_pass m assigned_pilots rest
    else if (match (assigned_pilots.find? (fun e => e.1 = p.name)) with
             | some (_, other_mission) =>
               dates_overlap m.start_date m.end_date
                 other_mission.start_date other_mission.end_date
             | none => false) then match_pilots_pass m assigned_pilots rest
    else
      match mission_duration_raw m with
      | .error e => .error e
      | .ok duration =>
        if ¬ is_within_budget m.budget (calculate_pilot_cost p.daily_rate duration) then
          match_pilots_pass m assigned_pilots rest
        else
          match match_pilots_pass m assigned_pilots rest with
          | .error e => .error e
          | .ok tail =>
            .ok ({ pilot := p,
                   cost := calculate_pilot_cost p.daily_rate duration,
                   score := calculate_pilot_score p m (calculate_pilot_cost p.daily_rate duration),
                   match_percentage := calculate_pilot_score p m (calculate_pilot_cost p.daily_rate duration) } :: tail)

/-- `DecisionEngine.match_pilots`: valid candidates sorted cheapest-first. -/
def match_pilots (m : Mission) (pilots : List Pilot)
    (assigned_pilots : List (String × Mission)) : Except String (List PilotCandidate) :=
  match match_pilots_pass m assigned_pilots pilots with
  | .error e => .error e
  | .ok valid_candidates => .ok (sortAscBy (fun c => c.cost) valid_candidates)

/-- Filter pass of `DecisionEngine.match_drones` (before sorting): rejects
on availability, weather compatibility (stub) and schedule overlap with
the `assigned_drones` map; the maintenance branch of the source never
rejects (`maintenance_ok` is constantly `True`). -/
def match_drones_pass (m : Mission) (assigned_drones : List (String × Mission)) :
    List Drone → List DroneCandidate
  | [] => []
  | d :: rest =>
    if ¬ d.is_available then match_drones_pass m assigned_drones rest
    else if ¬ decision_weather_compatible d m then match_drones_pass m assigned_drones rest
    else if (match (assigned_drones.find? (fun e => e.1 = d.id)) with
             | some (_, other_mission) =>
               dates_overlap m.start_date m.end_date
                 other_mission.start_date other_mission.end_date
             | none => false) then match_drones_pass m assigned_drones rest
    else
      { drone := d, score := calculate_drone_score d m,
        match_percentage := calculate_drone_score d m } ::
        match_drones_pass m assigned_drones rest

/-- `DecisionEngine.match_drones`: valid candidates sorted best-first. -/
def match_drones (m : Mission) (drones : List Drone)
    (assigned_drones : List (String × Mission)) : List DroneCandidate :=
  sortDescBy (fun c => c.score) (match_drones_pass m assigned_drones drones)

/-- The dictionary returned by `DecisionEngine.find_best_assignment`. -/
structure BestAssignment where
  pilot : Pilot
  drone : Drone
  pilot_cost : ℚ
  pilot_score : ℚ
  drone_score : ℚ
  total_score : ℚ
deriving DecidableEq

/-- `DecisionEngine.find_best_assignment`: cheapest valid pilot paired
with the best-scoring valid drone, combined score their average; `None`
when either filtered list is empty. -/
def find_best_assignment (m : Mission) (pilots : List Pilot) (drones : List Drone)
    (assigned_pilots assigned_drones : List (String × Mission)) :
    Except String (Option BestAssignment) :=
  match match_pilots m pilots assigned_pilots with
  | .error e => .error e
  | .ok valid_pilots =>
    let valid_drones := match_drones m drones assigned_drones
    match valid_pilots, valid_drones with
    | best_pilot :: _, best_drone :: _ =>
      .ok (some { pilot := best_pilot.pilot, drone := best_drone.drone,
                  pilot_cost := best_pilot.cost,
                  pilot_score := best_pilot.score,
                  drone_score := best_drone.score,
                  total_score := (best_pilot.score + best_drone.score) / 2 })
    | _, _ => .ok none

/-! ## `src/agent/assignment_manager.py`

`self.assignments` maps mission id to either a live assignment record or
`None` (`unassign_mission` clears the slot without deleting the key); it
is embedded as an insertion-ordered association list with unique keys.
`assigned_at` timestamps are omitted (wall-clock I/O).
-/

/-- A live entry of `AssignmentManager.assignments`
(`{"mission", "pilot", "drone", "assigned_at", "score"}`). -/
structure Assignment where
  mission : Mission
  pilot : Pilot
  drone : Drone
  score : ℚ
deriving DecidableEq

/-- One record of `AssignmentManager.assignment_history`
(`{"action", "mission_id", "pilot", "drone", "timestamp"}`,
timestamp omitted). -/
structure HistoryEntry where
  action : String
  mission_id : String
  pilot : Option String
  drone : Option String
deriving DecidableEq

/-- The mutable state of an `AssignmentManager`. -/
structure AMState where
  assignments : List (String × Option Assignment)
  assignment_history : List HistoryEntry
deriving DecidableEq

/-- `AssignmentManager.__init__`: empty map, empty history. -/
def AMState.init : AMState := { assignments := [], assignment_history := [] }

/-- Python `key in dict` on the assignments map. -/
def amContains (st : AMState) (mission_id : String) : Bool :=
  st.assignments.any (fun e => e.1 = mission_id)

/-- Python `dict[key] = value`: replace in place if the key exists,
otherwise append. -/
def amSet (assignments : List (String × Option Assignment)) (mission_id : String)
    (v : Option Assignment) : List (String × Option Assignment) :=
  if assignments.any (fun e => e.1 = mission_id) then
    assignments.map (fun e => if e.1 = mission_id then (mission_id, v) else e)
  else assignments ++ [(mission_id, v)]

/-- `AssignmentManager.get_assigned_missions`: missions of live entries
whose pilot equals (dataclass equality) the given pilot. -/
def get_assigned_missions (st : AMState) (p : Pilot) : List Mission :=
  st.assignments.filterMap (fun e =>
    match e.2 with
    | some a => if a.pilot = p then some a.mission else none
    | none => none)

/-- `AssignmentManager.get_assigned_missions_drone`. -/
def get_assigned_missions_drone (st : AMState) (d : Drone) : List Mission :=
  st.assignments.filterMap (fun e =>
    match e.2 with
    | some a => if a.drone = d then some a.mission else none
    | none => none)

/-- `AssignmentManager.is_pilot_available`: no date overlap with any
mission already assigned to this pilot. -/
def is_pilot_available (st : AMState) (p : Pilot) (m : Mission) : Bool :=
  (get_assigned_missions st p).all (fun am =>
    ¬ dates_overlap m.start_date m.end_date am.start_date am.end_date)

/-- `AssignmentManager.is_drone_available`. -/
def is_drone_available (st : AMState) (d : Drone) (m : Mission) : Bool :=
  (get_assigned_missions_drone st d).all (fun am =>
    ¬ dates_overlap m.start_date m.end_date am.start_date am.end_date)

/-- `AssignmentManager.get_available_pilots`. -/
def get_available_pilots (st : AMState) (m : Mission) (pilots : List Pilot) : List Pilot :=
  pilots.filter (fun p => is_pilot_available st p m)

/-- `AssignmentManager.get_available_drones`. -/
def get_available_drones (st : AMState) (m : Mission) (drones : List Drone) : List Drone :=
  drones.filter (fun d => is_drone_available st d m)

/-- The status dictionary returned by `assign_mission` / `unassign_mission`
(`success`, plus the keys present in the branch taken). -/
structure AMResult where
  success : Bool
  reason : Option String := none
  mission : Option String := none
  pilot : Option String := none
  drone : Option String := none
  message : Option String := none
deriving DecidableEq

/-- `AssignmentManager.assign_mission`: re-validates pilot then drone
against the live map; on conflict returns a failure dict naming the
conflicting side and leaves the state untouched; on success stores the
assignment (score `0.0`) and appends an `ASSIGN` history entry. -/
def assign_mission (st : AMState) (m : Mission) (p : Pilot) (d : Drone) :
    AMState × AMResult :=
  if ¬ is_pilot_available st p m then
    (st, { success := false, reason := some "Pilot schedule conflict",
           mission := some m.id, pilot := some p.name })
  else if ¬ is_drone_available st d m then
    (st, { success := false, reason := some "Drone schedule conflict",
           mission := some m.id, drone := some d.id })
  else
    ({ assignments := amSet st.assignments m.id (some { mission := m, pilot := p, drone := d, score := 0 }),
       assignment_history := st.assignment_history ++
         [{ action := "ASSIGN", mission_id := m.id,
            pilot := some p.name, drone := some d.id }] },
     { success := true, mission := some m.id, pilot := some p.name,
       drone := some d.id,
       message := some ("Successfully assigned " ++ p.name ++ " + " ++ d.id ++ " to " ++ m.name) })

/-- `AssignmentManager.unassign_mission`: a missing key yields the
"Mission not assigned" failure dict; a live entry is cleared (set to
`None`, the key kept) and an `UNASSIGN` history entry appended; a key
already holding `None` is cleared again and then raises `AttributeError`
(`None.get`) while building the history entry, before any append. -/
def unassign_mission (st : AMState) (mission_id : String) :
    Except String (AMState × AMResult) :=
  match st.assignments.find? (fun e => e.1 = mission_id) with
  | none =>
    .ok (st, { success := false, reason := some "Mission not assigned",
               mission := some mission_id })
  | some (_, stored) =>
    let st1 : AMState := { st with assignments := amSet st.assignments mission_id none }
    match stored with
    | none => .error "AttributeError: NoneType object has no attribute get"
    | some a =>
      .ok ({ st1 with assignment_history := st1.assignment_history ++
               [{ action := "UNASSIGN", mission_id := mission_id,
                  pilot := some a.pilot.name, drone := some a.drone.id }] },
           { success := true, mission := some mission_id,
             message := some ("Successfully unassigned mission " ++ mission_id) })

/-- `AssignmentManager.reassign_mission`: unassign first when the key is
present (an `AttributeError` from a cleared slot propagates; the state is
unchanged in that case since re-clearing a cleared slot is the identity),
then assign. -/
def reassign_mission (st : AMState) (m : Mission) (p : Pilot) (d : Drone) :
    Except String (AMState × AMResult) :=
  if amContains st m.id then
    match unassign_mission st m.id with
    | .error e => .error e
    | .ok (st1, _) => .ok (assign_mission st1 m p d)
  else .ok (assign_mission st m p d)

/-- The states an `AssignmentManager` can reach from construction through
any sequence of `assign_mission`, `unassign_mission`, `reassign_mission`
calls (a call that raises leaves the state unchanged, so only normal
returns generate new states). -/
inductive Reachable : AMState → Prop
  | init : Reachable AMState.init
  | assign (st : AMState) (m : Mission) (p : Pilot) (d : Drone) :
      Reachable st → Reachable (assign_mission st m p d).1
  | unassign (st st' : AMState) (mission_id : String) (r : AMResult) :
      Reachable st → unassign_mission st mission_id = .ok (st', r) → Reachable st'
  | reassign (st st' : AMState) (m : Mission) (p : Pilot) (d : Drone) (r : AMResult) :
      Reachable st → reassign_mission st m p d = .ok (st', r) → Reachable st'

/-- The no-double-booking invariant of the claim: among live assignments
at two different keys, entries sharing a pilot never overlap in dates,
and likewise for drones. -/
def NoDoubleBooking (st : AMState) : Prop :=
  ∀ k1 a1 k2 a2, (k1, some a1) ∈ st.assignments → (k2, some a2) ∈ st.assignments →
    k1 ≠ k2 →
    (a1.pilot = a2.pilot →
      dates_overlap a1.mission.start_date a1.mission.end_date
        a2.mission.start_date a2.mission.end_date = false) ∧
    (a1.drone = a2.drone →
      dates_overlap a1.mission.start_date a1.mission.end_date
        a2.mission.start_date a2.mission.end_date = false)

/-! ## `src/agent/urgent_reassignment.py`

The service owns a fresh `AssignmentManager` plus the append-only
`reassignment_log`.  The external Google-Sheets write inside the `try`
block only has its success flag inspected (to print a warning), so it is
passed in as a boolean.  Result timestamps are omitted (wall-clock I/O).
-/

/-- An entry of `check_mission_validity`'s `conflicts` list: either one of
the sentinel strings `MISSING_PILOT` / `MISSING_DRONE`, or a conflict
dictionary from the conflict engine (the source mixes both in one list). -/
inductive VConflict where
  | str (s : String)
  | conf (c : Conflict)
deriving DecidableEq

/-- Whether a `conflicts` entry is a dictionary (not a string); Python's
`", ".join` raises `TypeError` on such an entry. -/
def VConflict.isDict : VConflict → Bool
  | .str _ => false
  | .conf _ => true

/-- The string a `conflicts` entry contributes to `", ".join` (only
evaluated on lists whose entries are all strings). -/
def VConflict.asStr : VConflict → String
  | .str s => s
  | .conf _ => ""

/-- Python `", ".join(conflicts)` over an all-string conflicts list. -/
def joinConflicts (cs : List VConflict) : String :=
  String.intercalate ", " (cs.map VConflict.asStr)

/-- The dictionary returned by
`UrgentReassignmentService.check_mission_validity`. -/
structure Validity where
  valid : Bool
  conflicts : List VConflict
  reason : String
deriving DecidableEq

/-- `UrgentReassignmentService.check_mission_validity`: unassigned
missions are valid; an assigned mission whose recorded pilot (searched by
name) or drone (searched by `drone_id`) is absent is invalid with the
matching sentinel string; otherwise both resources are re-checked by the
conflict engine with no sibling-mission context (the budget check inside
can raise, propagated). -/
def check_mission_validity (m : Mission) (pilots : List Pilot) (drones : List Drone) :
    Except String Validity :=
  if m.is_unassigned then
    .ok { valid := true, conflicts := [],
          reason := "Mission is unassigned (not yet assigned)" }
  else
    let assigned_pilot := pilots.find? (fun p => some p.name = m.assigned_pilot)
    let assigned_drone := drones.find? (fun d => some d.drone_id = m.assigned_drone)
    match assigned_pilot, assigned_drone with
    | none, _ =>
      .ok { valid := false, conflicts := [.str "MISSING_PILOT"],
            reason := "Assigned resource not found" }
    | some _, none =>
      .ok { valid := false, conflicts := [.str "MISSING_DRONE"],
            reason := "Assigned resource not found" }
    | some p, some d =>
      match check_pilot_assignment p m [] with
      | .error e => .error e
      | .ok pilot_conflicts =>
        let drone_conflicts := check_drone_assignment d m []
        .ok { valid := pilot_conflicts.isEmpty && drone_conflicts.isEmpty,
              conflicts := (pilot_conflicts ++ drone_conflicts).map VConflict.conf,
              reason := "Pilot and drone validity per conflict engine" }

/-- A record of the `reassignment_log`, also the return value of
`handle_urgent_mission` (one Python dict with branch-dependent keys;
an outer `some` marks a key that the branch emits). -/
structure UResult where
  status : String
  mission_id : String
  priority : Option String := none
  assigned_pilot : Option (Option String) := none
  assigned_drone : Option (Option String) := none
  previous_pilot : Option (Option String) := none
  previous_drone : Option (Option String) := none
  new_pilot : Option String := none
  new_drone : Option String := none
  pilot_score : Option ℚ := none
  drone_score : Option ℚ := none
  combined_score : Option ℚ := none
  conflicts : Option (List VConflict) := none
  conflicts_resolved : Option (List VConflict) := none
  reason : String
deriving DecidableEq

/-- The state owned by an `UrgentReassignmentService`: its assignment
manager and its append-only reassignment log. -/
structure SvcState where
  am : AMState
  reassignment_log : List UResult
deriving DecidableEq

/-- `UrgentReassignmentService.__init__` (fresh manager, empty log). -/
def SvcState.init : SvcState := { am := AMState.init, reassignment_log := [] }

/-- Python `str.lower()`, embedded structurally character by character
(Lean's own `String.toLower` recurses on byte positions and does not
reduce in the kernel). -/
def str_lower (s : String) : String := ⟨s.data.map Char.toLower⟩

/-- The eligibility gate of `handle_urgent_mission`:
`mission.priority.lower() in ["high", "urgent"]`. -/
def urgent_priority_eligible (m : Mission) : Bool :=
  str_lower m.priority = "high" ∨ str_lower m.priority = "urgent"

/-- `UrgentReassignmentService.handle_urgent_mission`.  Control flow of
the source, in order: unknown mission id → `ERROR` result (returned
without logging); priority outside high/urgent → `NO_ACTION` (not
logged); valid current assignment → `NO_ACTION` (not logged); otherwise
the conflict print `", ".join(validity["conflicts"])` raises `TypeError`
whenever the conflicts are dictionaries rather than sentinel strings;
then no available resources or no decision-engine candidate →
`UNASSIGNABLE` (logged); an exception inside the reassignment `try` block
→ `ERROR` (logged); success → `REASSIGNED` (logged).  The decision-engine
call sits outside the `try` block, so its exceptions propagate. -/
def handle_urgent_mission (st : SvcState) (mission_id : String)
    (pilots : List Pilot) (drones : List Drone) (missions : List Mission)
    (_sheets_success : Bool) : Except String (SvcState × UResult) :=
  match missions.find? (fun m => m.project_id = mission_id) with
  | none =>
    .ok (st, { status := "ERROR", mission_id := mission_id,
               reason := "Mission " ++ mission_id ++ " not found" })
  | some mission =>
    if ¬ urgent_priority_eligible mission then
      .ok (st, { status := "NO_ACTION", mission_id := mission_id,
                 priority := some mission.priority,
                 conflicts := some [],
                 reason := "Mission is not high or urgent priority - urgent reassignment not required" })
    else
      match check_mission_validity mission pilots drones with
      | .error e => .error e
      | .ok validity =>
        if validity.valid then
          .ok (st, { status := "NO_ACTION", mission_id := mission_id,
                     priority := some mission.priority,
                     assigned_pilot := some mission.assigned_pilot,
                     assigned_drone := some mission.assigned_drone,
                     conflicts := some [],
                     reason := validity.reason })
        else if validity.conflicts.any VConflict.isDict then
          .error "TypeError: sequence item 0: expected str instance, dict found"
        else
          let previous_pilot := mission.assigned_pilot
          let previous_drone := mission.assigned_drone
          let available_pilots := get_available_pilots st.am mission pilots
          let available_drones := get_available_drones st.am mission drones
          if available_pilots.isEmpty ∨ available_drones.isEmpty then
            let r : UResult :=
              { status := "UNASSIGNABLE", mission_id := mission_id,
                priority := some mission.priority,
                previous_pilot := some previous_pilot,
                previous_drone := some previous_drone,
                conflicts := some validity.conflicts,
                reason := "No available pilots (" ++ toString available_pilots.length ++
                          ") or drones (" ++ toString available_drones.length ++ ")" }
            .ok ({ st with reassignment_log := st.reassignment_log ++ [r] }, r)
          else
            match find_best_assignment mission available_pilots available_drones [] [] with
            | .error e => .error e
            | .ok none =>
              let r : UResult :=
                { status := "UNASSIGNABLE", mission_id := mission_id,
                  priority := some mission.priority,
                  previous_pilot := some previous_pilot,
                  previous_drone := some previous_drone,
                  conflicts := some validity.conflicts,
                  reason := "DecisionEngine found no suitable assignment" }
              .ok ({ st with reassignment_log := st.reassignment_log ++ [r] }, r)
            | .ok (some best) =>
              let new_mission : Mission :=
                { mission with
                  status := "Assigned",
                  assigned_pilot := some best.pilot.name,
                  assigned_drone := some best.drone.drone_id }
              match reassign_mission st.am new_mission best.pilot best.drone with
              | .error e =>
                let r : UResult :=
                  { status := "ERROR", mission_id := mission_id,
                    priority := some mission.priority,
                    previous_pilot := some previous_pilot,
                    previous_drone := some previous_drone,
                    conflicts := some validity.conflicts,
                    reason := "Exception during reassignment: " ++ e }
                .ok ({ st with reassignment_log := st.reassignment_log ++ [r] }, r)
              | .ok (am1, _update_result) =>
                let r : UResult :=
                  { status := "REASSIGNED", mission_id := mission_id,
                    priority := some mission.priority,
                    previous_pilot := some previous_pilot,
                    previous_drone := some previous_drone,
                    new_pilot := some best.pilot.name,
                    new_drone := some best.drone.drone_id,
                    pilot_score := some best.pilot_score,
                    drone_score := some best.drone_score,
                    combined_score := some best.total_score,
                    conflicts_resolved := some validity.conflicts,
                    reason := "Reassigned due to: " ++ joinConflicts validity.conflicts }
                .ok ({ am := am1,
                       reassignment_log := st.reassignment_log ++ [r] }, r)

/-- The per-mission loop of `handle_all_high_priority_missions`, threading
the service state and collecting the per-mission results in order. -/
def run_urgent_batch (st : SvcState) (pilots : List Pilot) (drones : List Drone)
    (missions : List Mission) (sheets_success : Bool) :
    List Mission → Except String (SvcState × List UResult)
  | [] => .ok (st, [])
  | m :: rest =>
    match handle_urgent_mission st m.project_id pilots drones missions sheets_success with
    | .error e => .error e
    | .ok (st1, r) =>
      match run_urgent_batch st1 pilots drones missions sheets_success rest with
      | .error e => .error e
      | .ok (st2, rs) => .ok (st2, r :: rs)

/-- The batch filter `m.priority.lower() == "high"` of
`handle_all_high_priority_missions` (`Urgent` is not selected). -/
def is_batch_high_priority (m : Mission) : Bool :=
  str_lower m.priority == "high"

/-- The summary dictionary returned by `handle_all_high_priority_missions`. -/
structure BatchSummary where
  total_checked : ℕ
  reassigned : ℕ
  unassignable : ℕ
  no_action : ℕ
  errors : ℕ
  results : List UResult
deriving DecidableEq

/-- `UrgentReassignmentService.handle_all_high_priority_missions`: runs
the single-mission handler over the missions whose lower-cased priority
is exactly `high`, then tallies the outcome statuses.  (The source's
early return for an empty selection produces the same all-zero summary as
the general path.) -/
def handle_all_high_priority_missions (st : SvcState) (pilots : List Pilot)
    (drones : List Drone) (missions : List Mission) (sheets_success : Bool) :
    Except String (SvcState × BatchSummary) :=
  let high_priority_missions := missions.filter is_batch_high_priority
  match run_urgent_batch st pilots drones missions sheets_success high_priority_missions with
  | .error e => .error e
  | .ok (st', results) =>
    .ok (st',
      { total_checked := high_priority_missions.length,
        reassigned := (results.filter (fun r => r.status = "REASSIGNED")).length,
        unassignable := (results.filter (fun r => r.status = "UNASSIGNABLE")).length,
        no_action := (results.filter (fun r => r.status = "NO_ACTION")).length,
        errors := (results.filter (fun r => r.status = "ERROR")).length,
        results := results })

/-! ## Concrete fixtures used by witnesses and counterexamples -/

/-- A mission with concrete dates (days 50-52), one required skill and a
50000 budget. -/
def mDates : Mission :=
  { project_id := "M1", client := "Acme Surveys", location := "Delhi",
    start_date := some 50, end_date := some 52,
    required_skills := ["Thermal Imaging"], required_certs := [],
    mission_budget_inr := 50000, priority := "High", status := "Unassigned",
    assigned_pilot := none, assigned_drone := none, weather_forecast := none }

/-- The same mission with both dates missing (`None`). -/
def mNoDates : Mission :=
  { mDates with
    start_date := none,
    end_date := none }

/-- An available pilot holding the required skill. -/
def pAlice : Pilot :=
  { pilot_id := "P1", name := "Alice", location := "Delhi",
    skills := ["Thermal Imaging", "LiDAR"], certifications := [],
    status := "Available", current_assignment := none,
    available_from := none, daily_rate_inr := 5000 }

/-- A pilot whose status is On Leave. -/
def pOnLeave : Pilot :=
  { pAlice with
    name := "Bob",
    status := "On Leave" }

/-- An available drone. -/
def dHawk : Drone :=
  { drone_id := "D1", model := "MX-4", location := "Delhi",
    status := "Available", capabilities := "Mapping",
    weather_resistance := "IP67", maintenance_due := 0,
    current_assignment := "" }

/-- A drone parked in maintenance. -/
def dDown : Drone :=
  { dHawk with
    drone_id := "D2",
    status := "Maintenance" }

/-! ## C2 — overlap predicate -/

/-- C2: `dates_overlap` on present dates is exactly
`start1 ≤ end2 ∧ start2 ≤ end1`; adjacency of the inclusive ranges,
identical ranges and nested ranges overlap, disjoint ranges do not. -/
theorem dates_overlap_correct :
    (∀ s1 e1 s2 e2 : ℤ,
      dates_overlap (some s1) (some e1) (some s2) (some e2) = true ↔ s1 ≤ e2 ∧ s2 ≤ e1) ∧
    dates_overlap (some 0) (some 2) (some 2) (some 5) = true ∧
    dates_overlap (some 0) (some 3) (some 0) (some 3) = true ∧
    dates_overlap (some 0) (some 10) (some 2) (some 4) = true ∧
    dates_overlap (some 0) (some 2) (some 3) (some 5) = false :=
  ⟨fun s1 e1 s2 e2 => by simp [dates_overlap], by decide, by decide, by decide, by decide⟩

/-! ## C10 — missing dates overlap nothing -/

/-- `dates_overlap` is `false` whenever one argument is `None`. -/
theorem dates_overlap_of_none (s1 e1 s2 e2 : Option ℤ)
    (h : s1 = none ∨ e1 = none ∨ s2 = none ∨ e2 = none) :
    dates_overlap s1 e1 s2 e2 = false := by
  rcases s1 with _ | s1 <;> rcases e1 with _ | e1 <;>
    rcases s2 with _ | s2 <;> rcases e2 with _ | e2 <;>
    simp [dates_overlap] at h ⊢

/-- C10: a `None` date argument makes `dates_overlap` return `False`, so a
mission missing a start or end date is always schedulable by the
assignment manager's availability checks and never produces a
double-booking conflict in the conflict engine. -/
theorem missing_dates_never_double_book :
    (∀ s1 e1 s2 e2 : Option ℤ, s1 = none ∨ e1 = none ∨ s2 = none ∨ e2 = none →
      dates_overlap s1 e1 s2 e2 = false) ∧
    (∀ (st : AMState) (p : Pilot) (m : Mission),
      m.start_date = none ∨ m.end_date = none → is_pilot_available st p m = true) ∧
    (∀ (st : AMState) (d : Drone) (m : Mission),
      m.start_date = none ∨ m.end_date = none → is_drone_available st d m = true) ∧
    (∀ (p : Pilot) (m : Mission) (others : List Mission),
      m.start_date = none ∨ m.end_date = none → check_date_overlap p m others = none) ∧
    (∀ (d : Drone) (m : Mission) (others : List Mission),
      m.start_date = none ∨ m.end_date = none → check_drone_date_overlap d m others = none) := by
  have hfalse : ∀ (m om : Mission), m.start_date = none ∨ m.end_date = none →
      dates_overlap m.start_date m.end_date om.start_date om.end_date = false := by
    intro m om h
    exact dates_overlap_of_none _ _ _ _ (by tauto)
  refine ⟨fun s1 e1 s2 e2 h => dates_overlap_of_none s1 e1 s2 e2 h, ?_, ?_, ?_, ?_⟩
  · intro st p m h
    simp only [is_pilot_available, List.all_eq_true]
    intro am _
    simp [hfalse m am h]
  · intro st d m h
    simp only [is_drone_available, List.all_eq_true]
    intro am _
    simp [hfalse m am h]
  · intro p m others h
    unfold check_date_overlap
    have hfilter : (others.filter (fun om => om.id ≠ m.id ∧
        dates_overlap m.start_date m.end_date om.start_date om.end_date)) = [] := by
      rw [List.filter_eq_nil_iff]
      intro om _
      simp [hfalse m om h]
    by_cases hempty : others.isEmpty
    · simp [hempty]
    · simp [hempty]
      intro x _ _
      exact hfalse m x h
  · intro d m others h
    unfold check_drone_date_overlap
    have hfilter : (others.filter (fun om => om.id ≠ m.id ∧
        dates_overlap m.start_date m.end_date om.start_date om.end_date)) = [] := by
      rw [List.filter_eq_nil_iff]
      intro om _
      simp [hfalse m om h]
    by_cases hempty : others.isEmpty
    · simp [hempty]
    · simp [hempty]
      intro x _ _
      exact hfalse m x h

/-- Witness for C10 at concrete inputs. -/
theorem missing_dates_never_double_book_witness :
    dates_overlap none (some 1) (some 0) (some 3) = false ∧
    is_pilot_available AMState.init pAlice mNoDates = true ∧
    is_drone_available AMState.init dHawk mNoDates = true ∧
    check_date_overlap pAlice mNoDates [mDates] = none ∧
    check_drone_date_overlap dHawk mNoDates [mDates] = none :=
  ⟨missing_dates_never_double_book.1 none (some 1) (some 0) (some 3) (Or.inl rfl),
   missing_dates_never_double_book.2.1 AMState.init pAlice mNoDates (Or.inl rfl),
   missing_dates_never_double_book.2.2.1 AMState.init dHawk mNoDates (Or.inl rfl),
   missing_dates_never_double_book.2.2.2.1 pAlice mNoDates [mDates] (Or.inl rfl),
   missing_dates_never_double_book.2.2.2.2 dHawk mNoDates [mDates] (Or.inl rfl)⟩

/-! ## C7 — fail-fast on availability -/

/-- C7: an unavailable pilot (resp. drone) makes the aggregate check
return exactly one conflict, of category AVAILABILITY and CRITICAL
severity. -/
theorem availability_fail_fast :
    (∀ (p : Pilot) (m : Mission) (others : List Mission), p.status ≠ "Available" →
      ∃ c, check_pilot_assignment p m others = .ok [c] ∧
        c.type = "AVAILABILITY" ∧ c.severity = "CRITICAL") ∧
    (∀ (d : Drone) (m : Mission) (others : List Mission), d.status ≠ "Available" →
      ∃ c, check_drone_assignment d m others = [c] ∧
        c.type = "AVAILABILITY" ∧ c.severity = "CRITICAL") := by
  constructor
  · intro p m others h
    have hb : (p.status == "Available") = false := by
      simp [h]
    refine ⟨{ type := "AVAILABILITY", severity := "CRITICAL",
              message := "Pilot " ++ p.name ++ " is " ++ p.status,
              code := "PILOT_NOT_AVAILABLE", pilot := some p.name }, ?_, rfl, rfl⟩
    simp [check_pilot_assignment, check_pilot_availability, Pilot.is_available, hb]
  · intro d m others h
    have hb : (d.status == "Available") = false := by
      simp [h]
    refine ⟨{ type := "AVAILABILITY", severity := "CRITICAL",
              message := "Drone " ++ d.id ++ " is " ++ d.status,
              code := "DRONE_NOT_AVAILABLE", drone := some d.id }, ?_, rfl, rfl⟩
    simp [check_drone_assignment, check_drone_availability, Drone.is_available, hb]

/-- Witness for C7: an On-Leave pilot and an in-maintenance drone each
yield the single CRITICAL availability conflict. -/
theorem availability_fail_fast_witness :
    (∃ c, check_pilot_assignment pOnLeave mDates [] = .ok [c] ∧
      c.type = "AVAILABILITY" ∧ c.severity = "CRITICAL") ∧
    (∃ c, check_drone_assignment dDown mDates [] = [c] ∧
      c.type = "AVAILABILITY" ∧ c.severity = "CRITICAL") :=
  ⟨availability_fail_fast.1 pOnLeave mDates [] (by decide),
   availability_fail_fast.2 dDown mDates [] (by decide)⟩

/-! ## C4 — unassign on a mission with no live assignment -/

/-- The state after assigning the fixture mission, pilot and drone. -/
def stAssigned : AMState := (assign_mission AMState.init mDates pAlice dHawk).1

/-- The state after assigning and then unassigning the fixture mission:
the `M1` slot still exists and holds `None`. -/
def stCleared : AMState :=
  { assignments := [("M1", none)],
    assignment_history :=
      [{ action := "ASSIGN", mission_id := "M1", pilot := some "Alice", drone := some "D1" },
       { action := "UNASSIGN", mission_id := "M1", pilot := some "Alice", drone := some "D1" }] }

/-- C4 (behaviour the code actually has): a mission id that was never a
key of the map gets the "Mission not assigned" failure dict; a live
assignment is cleared with exactly one UNASSIGN history entry naming the
removed pilot and drone; but unassigning a previously-unassigned mission
raises `AttributeError` instead of returning the failure dict — shown on
the assign/unassign/unassign fixture run. -/
theorem unassign_missing_behaviour :
    (∀ (st : AMState) (mid : String),
      st.assignments.find? (fun e => e.1 = mid) = none →
      unassign_mission st mid =
        .ok (st, { success := false, reason := some "Mission not assigned",
                   mission := some mid })) ∧
    (∀ (st : AMState) (mid : String) (a : Assignment),
      st.assignments.find? (fun e => e.1 = mid) = some (mid, some a) →
      unassign_mission st mid =
        .ok ({ assignments := amSet st.assignments mid none,
               assignment_history := st.assignment_history ++
                 [{ action := "UNASSIGN", mission_id := mid,
                    pilot := some a.pilot.name, drone := some a.drone.id }] },
             { success := true, mission := some mid,
               message := some ("Successfully unassigned mission " ++ mid) })) ∧
    unassign_mission stAssigned "M1" =
      .ok (stCleared,
           { success := true, mission := some "M1",
             message := some "Successfully unassigned mission M1" }) ∧
    unassign_mission stCleared "M1" =
      .error "AttributeError: NoneType object has no attribute get" := by
  refine ⟨?_, ?_, ?_, ?_⟩
  · intro st mid hfind
    simp [unassign_mission, hfind]
  · intro st mid a hfind
    simp [unassign_mission, hfind]
  · rfl
  · rfl

/-- Witness for C4 at concrete inputs: the empty manager has no key
`M9`; the assigned fixture state holds a live `M1` entry. -/
theorem unassign_missing_behaviour_witness :
    unassign_mission AMState.init "M9" =
      .ok (AMState.init, { success := false, reason := some "Mission not assigned",
                           mission := some "M9" }) ∧
    unassign_mission stAssigned "M1" =
      .ok ({ assignments := amSet stAssigned.assignments "M1" none,
             assignment_history := stAssigned.assignment_history ++
               [{ action := "UNASSIGN", mission_id := "M1",
                  pilot := some "Alice", drone := some "D1" }] },
           { success := true, mission := some "M1",
             message := some ("Successfully unassigned mission " ++ "M1") }) :=
  ⟨unassign_missing_behaviour.1 AMState.init "M9" (by decide),
   unassign_missing_behaviour.2.1 stAssigned "M1"
     { mission := mDates, pilot := pAlice, drone := dHawk, score := 0 } (by decide)⟩

/-! ## C5 — pilot budget check -/

/-- The fixture mission with a zero budget (three inclusive days, so any
positive daily rate exceeds it). -/
def mZeroBudget : Mission :=
  { mDates with
    mission_budget_inr := 0 }

/-- C5 (behaviour the code actually has): with both dates present and a
positive budget the check returns its result as a value — `None` when the
cost fits, otherwise a HIGH-severity BUDGET conflict whose overage is
`cost - budget` and whose overage percent is `(cost/budget - 1) * 100`
rounded to two decimals; but a zero budget with an over-budget cost makes
the division raise `ZeroDivisionError`, shown on the fixture pilot. -/
theorem check_pilot_budget_behaviour :
    (∀ (p : Pilot) (m : Mission) (s e : ℤ),
      m.start_date = some s → m.end_date = some e →
      is_within_budget m.budget (calculate_pilot_cost p.daily_rate (e - s + 1)) = true →
      check_pilot_budget p m = .ok none) ∧
    (∀ (p : Pilot) (m : Mission) (s e : ℤ),
      m.start_date = some s → m.end_date = some e →
      is_within_budget m.budget (calculate_pilot_cost p.daily_rate (e - s + 1)) = false →
      0 < m.budget →
      ∃ c, check_pilot_budget p m = .ok (some c) ∧
        c.type = "BUDGET" ∧ c.severity = "HIGH" ∧
        c.overage = some (calculate_pilot_cost p.daily_rate (e - s + 1) - m.budget) ∧
        c.overage_percent =
          some (round2 ((calculate_pilot_cost p.daily_rate (e - s + 1) / m.budget - 1) * 100))) ∧
    check_pilot_budget pAlice mZeroBudget = .error "ZeroDivisionError: division by zero" := by
  refine ⟨?_, ?_, ?_⟩
  · intro p m s e hs he hw
    simp [check_pilot_budget, mission_duration_raw, hs, he, hw]
  · intro p m s e hs he hw hb
    have hbne : ¬ (m.budget = 0) := by
      intro h0
      rw [h0] at hb
      exact lt_irrefl 0 hb
    refine ⟨{ type := "BUDGET", severity := "HIGH",
              message := "Pilot " ++ p.name ++ " cost exceeds mission budget",
              code := "BUDGET_OVERRUN", pilot := some p.name, mission := some m.id,
              cost := some (calculate_pilot_cost p.daily_rate (e - s + 1)),
              budget := some m.budget,
              overage := some (calculate_pilot_cost p.daily_rate (e - s + 1) - m.budget),
              overage_percent :=
                some (round2 ((calculate_pilot_cost p.daily_rate (e - s + 1) / m.budget) * 100 - 100)) },
           ?_, rfl, rfl, rfl, ?_⟩
    · simp [check_pilot_budget, mission_duration_raw, hs, he, hw, hbne]
    · have harith : (calculate_pilot_cost p.daily_rate (e - s + 1) / m.budget) * 100 - 100 =
          (calculate_pilot_cost p.daily_rate (e - s + 1) / m.budget - 1) * 100 := by
        ring
      rw [harith]
  · norm_num [check_pilot_budget, mission_duration_raw, mZeroBudget, mDates,
      calculate_pilot_cost, is_within_budget, Pilot.daily_rate, pAlice, Mission.budget]

/-- Witness for C5 at concrete inputs: the fixture pilot fits the 50000
budget of the fixture mission; a 20000-per-day variant overruns it by
10000 (20 percent). -/
theorem check_pilot_budget_behaviour_witness :
    check_pilot_budget pAlice mDates = .ok none ∧
    (∃ c, check_pilot_budget { pAlice with daily_rate_inr := 20000 } mDates = .ok (some c) ∧
      c.type = "BUDGET" ∧ c.severity = "HIGH" ∧
      c.overage = some (calculate_pilot_cost (20000 : ℚ) 3 - 50000) ∧
      c.overage_percent = some (round2 ((calculate_pilot_cost (20000 : ℚ) 3 / 50000 - 1) * 100))) :=
  ⟨check_pilot_budget_behaviour.1 pAlice mDates 50 52 rfl rfl (by
      norm_num [is_within_budget, calculate_pilot_cost, mDates, Mission.budget,
        Pilot.daily_rate, pAlice]),
   check_pilot_budget_behaviour.2.1 { pAlice with daily_rate_inr := 20000 } mDates 50 52 rfl rfl
     (by norm_num [is_within_budget, calculate_pilot_cost, mDates, Mission.budget,
        Pilot.daily_rate, pAlice])
     (by norm_num [mDates, Mission.budget])⟩

/-! ## Helper lemmas: rounding bounds and stable-sort order -/

/-- `roundHalfEven` of a nonnegative rational is nonnegative. -/
theorem roundHalfEven_nonneg {x : ℚ} (hx : 0 ≤ x) : 0 ≤ roundHalfEven x := by
  unfold roundHalfEven
  have hf : (0 : ℤ) ≤ ⌊x⌋ := Int.floor_nonneg.mpr hx
  split
  · exact hf
  · split
    · omega
    · split <;> omega

/-- `roundHalfEven` never exceeds an integer upper bound of its argument. -/
theorem roundHalfEven_le {x : ℚ} {n : ℤ} (hx : x ≤ (n : ℚ)) : roundHalfEven x ≤ n := by
  unfold roundHalfEven
  have hfn : ⌊x⌋ ≤ n := by
    have := Int.floor_le_floor hx
    simpa using this
  have hlt : (⌊x⌋ : ℚ) < x → ⌊x⌋ + 1 ≤ n := by
    intro hstrict
    have h1 : (⌊x⌋ : ℚ) < (n : ℚ) := lt_of_lt_of_le hstrict hx
    have h2 : ⌊x⌋ < n := by exact_mod_cast h1
    omega
  split
  · exact hfn
  · split
    · refine hlt ?_
      have h12 : (0 : ℚ) < 1/2 := by norm_num
      have : (0 : ℚ) < x - (⌊x⌋ : ℚ) := lt_trans h12 (by assumption)
      linarith
    · split
      · exact hfn
      · refine hlt ?_
        have hge : ¬ (x - (⌊x⌋ : ℚ) < 1/2) := by assumption
        have : (1/2 : ℚ) ≤ x - (⌊x⌋ : ℚ) := le_of_not_lt hge
        linarith

/-- `round2` keeps values inside a `[0, 100]` window. -/
theorem round2_mem_Icc {x : ℚ} (h0 : 0 ≤ x) (h100 : x ≤ 100) :
    0 ≤ round2 x ∧ round2 x ≤ 100 := by
  unfold round2
  have hn : 0 ≤ roundHalfEven (x * 100) := roundHalfEven_nonneg (by positivity)
  have hu : roundHalfEven (x * 100) ≤ (10000 : ℤ) := by
    apply roundHalfEven_le
    push_cast
    nlinarith
  constructor
  · positivity
  · rw [div_le_iff₀ (by norm_num : (0:ℚ) < 100)]
    calc ((roundHalfEven (x * 100) : ℚ)) ≤ (10000 : ℚ) := by exact_mod_cast hu
    _ = 100 * 100 := by norm_num

/-- Membership is preserved by the ascending stable insertion. -/
theorem mem_insertAscBy {f : α → ℚ} {x a : α} {l : List α} :
    a ∈ insertAscBy f x l ↔ a = x ∨ a ∈ l := by
  induction l with
  | nil => simp [insertAscBy]
  | cons y ys ih =>
    unfold insertAscBy
    split
    · rw [List.mem_cons, ih, List.mem_cons]
      tauto
    · rw [List.mem_cons, List.mem_cons]

/-- Membership is preserved by the ascending stable sort. -/
theorem mem_sortAscBy {f : α → ℚ} {a : α} {l : List α} :
    a ∈ sortAscBy f l ↔ a ∈ l := by
  induction l with
  | nil => simp [sortAscBy]
  | cons y ys ih =>
    simp only [sortAscBy, List.foldr_cons] at *
    rw [mem_insertAscBy, ih, List.mem_cons]

/-- Membership is preserved by the descending stable insertion. -/
theorem mem_insertDescBy {f : α → ℚ} {x a : α} {l : List α} :
    a ∈ insertDescBy f x l ↔ a = x ∨ a ∈ l := by
  induction l with
  | nil => simp [insertDescBy]
  | cons y ys ih =>
    unfold insertDescBy
    split
    · rw [List.mem_cons, ih, List.mem_cons]
      tauto
    · rw [List.mem_cons, List.mem_cons]

/-- Membership is preserved by the descending stable sort. -/
theorem mem_sortDescBy {f : α → ℚ} {a : α} {l : List α} :
    a ∈ sortDescBy f l ↔ a ∈ l := by
  induction l with
  | nil => simp [sortDescBy]
  | cons y ys ih =>
    simp only [sortDescBy, List.foldr_cons] at *
    rw [mem_insertDescBy, ih, List.mem_cons]

/-- Ascending insertion preserves sortedness by f. -/
theorem pairwise_insertAscBy {f : α → ℚ} {x : α} {l : List α}
    (h : l.Pairwise (fun a b => f a ≤ f b)) :
    (insertAscBy f x l).Pairwise (fun a b => f a ≤ f b) := by
  induction l with
  | nil => simp [insertAscBy]
  | cons y ys ih =>
    rw [List.pairwise_cons] at h
    obtain ⟨hy, hys⟩ := h
    unfold insertAscBy
    split
    · rw [List.pairwise_cons]
      refine ⟨?_, ih hys⟩
      intro b hb
      rcases mem_insertAscBy.mp hb with rfl | hbys
      · assumption
      · exact hy b hbys
    · rw [List.pairwise_cons]
      have hxy : f x ≤ f y := le_of_lt (lt_of_not_le (by assumption))
      refine ⟨?_, by rw [List.pairwise_cons]; exact ⟨hy, hys⟩⟩
      intro b hb
      rcases List.mem_cons.mp hb with rfl | hbys
      · exact hxy
      · exact le_trans hxy (hy b hbys)

/-- The ascending stable sort is sorted by f. -/
theorem pairwise_sortAscBy {f : α → ℚ} {l : List α} :
    (sortAscBy f l).Pairwise (fun a b => f a ≤ f b) := by
  induction l with
  | nil => simp [sortAscBy]
  | cons y ys ih =>
    simp only [sortAscBy, List.foldr_cons] at *
    exact pairwise_insertAscBy ih

/-- Descending insertion preserves reverse-sortedness by f. -/
theorem pairwise_insertDescBy {f : α → ℚ} {x : α} {l : List α}
    (h : l.Pairwise (fun a b => f b ≤ f a)) :
    (insertDescBy f x l).Pairwise (fun a b => f b ≤ f a) := by
  induction l with
  | nil => simp [insertDescBy]
  | cons y ys ih =>
    rw [List.pairwise_cons] at h
    obtain ⟨hy, hys⟩ := h
    unfold insertDescBy
    split
    · rw [List.pairwise_cons]
      refine ⟨?_, ih hys⟩
      intro b hb
      rcases mem_insertDescBy.mp hb with rfl | hbys
      · assumption
      · exact hy b hbys
    · rw [List.pairwise_cons]
      have hyx : f y ≤ f x := le_of_lt (lt_of_not_le (by assumption))
      refine ⟨?_, by rw [List.pairwise_cons]; exact ⟨hy, hys⟩⟩
      intro b hb
      rcases List.mem_cons.mp hb with rfl | hbys
      · exact hyx
      · exact le_trans (hy b hbys) hyx

/-- The descending stable sort is reverse-sorted by f. -/
theorem pairwise_sortDescBy {f : α → ℚ} {l : List α} :
    (sortDescBy f l).Pairwise (fun a b => f b ≤ f a) := by
  induction l with
  | nil => simp [sortDescBy]
  | cons y ys ih =>
    simp only [sortDescBy, List.foldr_cons] at *
    exact pairwise_insertDescBy ih

/-- The head of the ascending sort belongs to the list and has minimal f. -/
theorem sortAscBy_head_min {f : α → ℚ} {l t : List α} {h : α}
    (hsort : sortAscBy f l = h :: t) :
    h ∈ l ∧ ∀ a ∈ l, f h ≤ f a := by
  have hmem : h ∈ l := by
    rw [← mem_sortAscBy (f := f), hsort]
    exact List.mem_cons_self h t
  refine ⟨hmem, ?_⟩
  intro a ha
  have ha' : a ∈ sortAscBy f l := mem_sortAscBy.mpr ha
  rw [hsort] at ha'
  rcases List.mem_cons.mp ha' with rfl | hat
  · exact le_refl _
  · have hp := pairwise_sortAscBy (f := f) (l := l)
    rw [hsort, List.pairwise_cons] at hp
    exact hp.1 a hat

/-- The head of the descending sort belongs to the list and has maximal f. -/
theorem sortDescBy_head_max {f : α → ℚ} {l t : List α} {h : α}
    (hsort : sortDescBy f l = h :: t) :
    h ∈ l ∧ ∀ a ∈ l, f a ≤ f h := by
  have hmem : h ∈ l := by
    rw [← mem_sortDescBy (f := f), hsort]
    exact List.mem_cons_self h t
  refine ⟨hmem, ?_⟩
  intro a ha
  have ha' : a ∈ sortDescBy f l := mem_sortDescBy.mpr ha
  rw [hsort] at ha'
  rcases List.mem_cons.mp ha' with rfl | hat
  · exact le_refl _
  · have hp := pairwise_sortDescBy (f := f) (l := l)
    rw [hsort, List.pairwise_cons] at hp
    exact hp.1 a hat

/-! ## Score bound lemmas (C8) -/

/-- `calculate_pilot_cost` never returns a negative amount. -/
theorem calculate_pilot_cost_nonneg (daily_rate : ℚ) (d : ℤ) :
    0 ≤ calculate_pilot_cost daily_rate d := by
  unfold calculate_pilot_cost
  split
  · exact le_refl 0
  · rename_i hcond
    push_neg at hcond
    exact mul_nonneg hcond.1 (by exact_mod_cast hcond.2)

/-- The skill component lies in `[0, 40]` and is exactly 40 when the
mission requires no skills. -/
theorem pilot_skill_score_bounds (p : Pilot) (m : Mission) :
    0 ≤ pilot_skill_score p m ∧ pilot_skill_score p m ≤ 40 := by
  unfold pilot_skill_score
  split
  · rename_i hne
    have hlen : 0 < (m.required_skills.length : ℚ) := by
      have : m.required_skills.length ≠ 0 := by
        simpa [List.length_eq_zero] using hne
      exact_mod_cast Nat.pos_of_ne_zero this
    have hle : ((m.required_skills.filter (fun s => p.skills.contains s)).length : ℚ) ≤
        (m.required_skills.length : ℚ) := by
      exact_mod_cast List.length_filter_le _ _
    constructor
    · positivity
    · have hfrac : ((m.required_skills.filter (fun s => p.skills.contains s)).length : ℚ) /
          (m.required_skills.length : ℚ) ≤ 1 := (div_le_one hlen).mpr hle
      nlinarith
  · norm_num

/-- The certification component lies in `[0, 30]` and is exactly 30 when
the mission requires no certifications. -/
theorem pilot_cert_score_bounds (p : Pilot) (m : Mission) :
    0 ≤ pilot_cert_score p m ∧ pilot_cert_score p m ≤ 30 := by
  unfold pilot_cert_score
  split
  · rename_i hne
    have hlen : 0 < (m.required_certifications.length : ℚ) := by
      have : m.required_certifications.length ≠ 0 := by
        simpa [List.length_eq_zero] using hne
      exact_mod_cast Nat.pos_of_ne_zero this
    have hle : ((m.required_certifications.filter (fun c => p.certifications.contains c)).length : ℚ) ≤
        (m.required_certifications.length : ℚ) := by
      exact_mod_cast List.length_filter_le _ _
    constructor
    · positivity
    · have hfrac : ((m.required_certifications.filter (fun c => p.certifications.contains c)).length : ℚ) /
          (m.required_certifications.length : ℚ) ≤ 1 := (div_le_one hlen).mpr hle
      nlinarith
  · norm_num

/-- The cost-efficiency component lies in `[0, 20]` for nonnegative cost. -/
theorem pilot_cost_score_bounds (m : Mission) (cost : ℚ) (hc : 0 ≤ cost) :
    0 ≤ pilot_cost_score m cost ∧ pilot_cost_score m cost ≤ 20 := by
  unfold pilot_cost_score
  have hmaxpos : (0 : ℚ) < max m.budget 1 := lt_of_lt_of_le zero_lt_one (le_max_right _ _)
  have h0 : 0 ≤ min (cost / max m.budget 1) 1 :=
    le_min (div_nonneg hc (le_of_lt hmaxpos)) zero_le_one
  have h1 : min (cost / max m.budget 1) 1 ≤ 1 := min_le_right _ _
  constructor
  · nlinarith
  · nlinarith

/-- The location component is 10 or 5. -/
theorem pilot_location_score_bounds (p : Pilot) (m : Mission) :
    0 ≤ pilot_location_score p m ∧ pilot_location_score p m ≤ 10 := by
  unfold pilot_location_score
  split <;> norm_num

/-- The full pilot match score lies in `[0, 100]` for nonnegative cost. -/
theorem calculate_pilot_score_bounds (p : Pilot) (m : Mission) (cost : ℚ) (hc : 0 ≤ cost) :
    0 ≤ calculate_pilot_score p m cost ∧ calculate_pilot_score p m cost ≤ 100 := by
  unfold calculate_pilot_score
  obtain ⟨hs0, hs1⟩ := pilot_skill_score_bounds p m
  obtain ⟨hc0, hc1⟩ := pilot_cert_score_bounds p m
  obtain ⟨he0, he1⟩ := pilot_cost_score_bounds m cost hc
  obtain ⟨hl0, hl1⟩ := pilot_location_score_bounds p m
  exact round2_mem_Icc (by linarith) (by linarith)

/-- The weather tier score lies in `[0, 30]`. -/
theorem weather_rating_score_bounds (rating : String) :
    0 ≤ weather_rating_score rating ∧ weather_rating_score rating ≤ 30 := by
  unfold weather_rating_score
  split <;> try norm_num
  split <;> try norm_num
  split <;> try norm_num
  split <;> try norm_num
  split <;> norm_num

/-- The full drone match score lies in `[0, 100]`. -/
theorem calculate_drone_score_bounds (d : Drone) (m : Mission) :
    0 ≤ calculate_drone_score d m ∧ calculate_drone_score d m ≤ 100 := by
  unfold calculate_drone_score
  obtain ⟨hw0, hw1⟩ := weather_rating_score_bounds d.weather_rating
  have hloc : 0 ≤ drone_location_score d m ∧ drone_location_score d m ≤ 20 := by
    unfold drone_location_score
    split <;> norm_num
  exact round2_mem_Icc (by linarith [hloc.1]) (by linarith [hloc.2])

/-- Every candidate surviving the pilot filter pass has its score in
`[0, 100]`. -/
theorem match_pilots_pass_bounds {m : Mission} {ap : List (String × Mission)} :
    ∀ (ps : List Pilot) (out : List PilotCandidate),
      match_pilots_pass m ap ps = .ok out → ∀ c ∈ out, 0 ≤ c.score ∧ c.score ≤ 100 := by
  intro ps
  induction ps with
  | nil =>
    intro out h c hc
    simp only [match_pilots_pass, Except.ok.injEq] at h
    subst h
    simp at hc
  | cons p rest ih =>
    intro out h c hc
    unfold match_pilots_pass at h
    split at h
    · exact ih out h c hc
    · split at h
      · exact ih out h c hc
      · split at h
        · exact ih out h c hc
        · split at h
          · exact ih out h c hc
          · split at h
            · exact absurd h (by simp)
            · split at h
              · exact ih out h c hc
              · split at h
                · exact absurd h (by simp)
                · rename_i tail htail
                  rw [Except.ok.injEq] at h
                  subst h
                  rcases List.mem_cons.mp hc with rfl | hct
                  · exact calculate_pilot_score_bounds p m _ (calculate_pilot_cost_nonneg _ _)
                  · exact ih tail htail c hct

/-- Every candidate surviving the drone filter pass has its score in
`[0, 100]`. -/
theorem match_drones_pass_bounds {m : Mission} {ad : List (String × Mission)} :
    ∀ (ds : List Drone) (c : DroneCandidate), c ∈ match_drones_pass m ad ds →
      0 ≤ c.score ∧ c.score ≤ 100 := by
  intro ds
  induction ds with
  | nil =>
    intro c hc
    simp [match_drones_pass] at hc
  | cons d rest ih =>
    intro c hc
    unfold match_drones_pass at hc
    split at hc
    · exact ih c hc
    · split at hc
      · exact ih c hc
      · split at hc
        · exact ih c hc
        · rcases List.mem_cons.mp hc with rfl | hct
          · exact calculate_drone_score_bounds d m
          · exact ih c hct

/-! ## C8 — score bounds -/

/-- C8: pilot and drone match scores lie in `[0, 100]` — both as computed
directly and for every candidate returned by the matching filters — and a
mission requiring no skills (resp. certifications) receives the full 40
(resp. 30) component points. -/
theorem match_score_bounds :
    (∀ (p : Pilot) (m : Mission) (cost : ℚ), 0 ≤ cost →
      0 ≤ calculate_pilot_score p m cost ∧ calculate_pilot_score p m cost ≤ 100) ∧
    (∀ (m : Mission) (pilots : List Pilot) (ap : List (String × Mission))
       (out : List PilotCandidate), match_pilots m pilots ap = .ok out →
      ∀ c ∈ out, 0 ≤ c.score ∧ c.score ≤ 100) ∧
    (∀ (d : Drone) (m : Mission),
      0 ≤ calculate_drone_score d m ∧ calculate_drone_score d m ≤ 100) ∧
    (∀ (m : Mission) (drones : List Drone) (ad : List (String × Mission)),
      ∀ c ∈ match_drones m drones ad, 0 ≤ c.score ∧ c.score ≤ 100) ∧
    (∀ (p : Pilot) (m : Mission), m.required_skills = [] → pilot_skill_score p m = 40) ∧
    (∀ (p : Pilot) (m : Mission), m.required_certifications = [] → pilot_cert_score p m = 30) := by
  refine ⟨fun p m cost hc => calculate_pilot_score_bounds p m cost hc, ?_,
          fun d m => calculate_drone_score_bounds d m, ?_, ?_, ?_⟩
  · intro m pilots ap out h c hc
    unfold match_pilots at h
    split at h
    · exact absurd h (by simp)
    · rename_i cands hcands
      rw [Except.ok.injEq] at h
      subst h
      exact match_pilots_pass_bounds pilots cands hcands c (mem_sortAscBy.mp hc)
  · intro m drones ad c hc
    exact match_drones_pass_bounds drones c (mem_sortDescBy.mp hc)
  · intro p m hreq
    simp [pilot_skill_score, hreq]
  · intro p m hreq
    simp [pilot_cert_score, hreq]

/-- The fixture mission with no required skills or certifications. -/
def mNoReqs : Mission :=
  { mDates with
    required_skills := [],
    required_certs := [] }

/-- The candidate entry `match_pilots` produces for the fixture pilot. -/
def candAlice : PilotCandidate :=
  { pilot := pAlice,
    cost := calculate_pilot_cost pAlice.daily_rate 3,
    score := calculate_pilot_score pAlice mDates (calculate_pilot_cost pAlice.daily_rate 3),
    match_percentage := calculate_pilot_score pAlice mDates (calculate_pilot_cost pAlice.daily_rate 3) }

/-- The candidate entry `match_drones` produces for the fixture drone. -/
def candHawk : DroneCandidate :=
  { drone := dHawk,
    score := calculate_drone_score dHawk mDates,
    match_percentage := calculate_drone_score dHawk mDates }

/-- Witness for C8 at concrete inputs, including a concrete
`match_pilots` / `match_drones` run and the no-required-skills and
no-required-certifications edge cases. -/
theorem match_score_bounds_witness :
    (0 ≤ calculate_pilot_score pAlice mDates 15000 ∧
      calculate_pilot_score pAlice mDates 15000 ≤ 100) ∧
    (0 ≤ candAlice.score ∧ candAlice.score ≤ 100) ∧
    (0 ≤ candHawk.score ∧ candHawk.score ≤ 100) ∧
    pilot_skill_score pAlice mNoReqs = 40 ∧
    pilot_cert_score pAlice mNoReqs = 30 :=
  ⟨match_score_bounds.1 pAlice mDates 15000 (by norm_num),
   match_score_bounds.2.1 mDates [pAlice] [] [candAlice]
     (by norm_num [match_pilots, match_pilots_pass, sortAscBy, insertAscBy, mission_duration_raw,
        mDates, pAlice, Pilot.is_available, Pilot.has_all_skills, Pilot.has_all_certifications,
        is_within_budget, calculate_pilot_cost, Pilot.daily_rate, Mission.budget, candAlice])
     candAlice (by simp),
   match_score_bounds.2.2.2.1 mDates [dHawk] [] candHawk
     (by norm_num [match_drones, match_drones_pass, sortDescBy, insertDescBy,
        mDates, dHawk, Drone.is_available, decision_weather_compatible, Drone.id, candHawk]),
   match_score_bounds.2.2.2.2.1 pAlice mNoReqs rfl,
   match_score_bounds.2.2.2.2.2 pAlice mNoReqs rfl⟩

/-! ## C3 — find_best_assignment optimality -/

/-- C3: when the pilot filter returns normally, `find_best_assignment`
yields `None` exactly when the filtered pilot or drone list is empty, and
otherwise pairs a minimum-cost valid pilot with a maximum-score valid
drone, with the combined score the arithmetic mean of the two. -/
theorem find_best_assignment_correct :
    ∀ (m : Mission) (pilots : List Pilot) (drones : List Drone)
      (ap ad : List (String × Mission)) (vp : List PilotCandidate),
      match_pilots m pilots ap = .ok vp →
      ((find_best_assignment m pilots drones ap ad = .ok none ↔
         vp = [] ∨ match_drones m drones ad = []) ∧
       (∀ r, find_best_assignment m pilots drones ap ad = .ok (some r) →
         r.total_score = (r.pilot_score + r.drone_score) / 2 ∧
         (∃ c ∈ vp, c.pilot = r.pilot ∧ c.cost = r.pilot_cost ∧ c.score = r.pilot_score) ∧
         (∀ c ∈ vp, r.pilot_cost ≤ c.cost) ∧
         (∃ c ∈ match_drones m drones ad, c.drone = r.drone ∧ c.score = r.drone_score) ∧
         (∀ c ∈ match_drones m drones ad, c.score ≤ r.drone_score))) := by
  intro m pilots drones ap ad vp hmp
  obtain ⟨cands, hcands, hsorted⟩ :
      ∃ cands, match_pilots_pass m ap pilots = .ok cands ∧
        vp = sortAscBy (fun c => c.cost) cands := by
    unfold match_pilots at hmp
    split at hmp
    · exact absurd hmp (by simp)
    · rename_i cands hcands
      rw [Except.ok.injEq] at hmp
      exact ⟨cands, hcands, hmp.symm⟩
  rcases vp with _ | ⟨bp, vt⟩ <;>
    rcases hvd : match_drones m drones ad with _ | ⟨bd, dt⟩
  · have hfb : find_best_assignment m pilots drones ap ad = .ok none := by
      simp [find_best_assignment, hmp, hvd]
    rw [hfb]
    exact ⟨by simp, by intro r hr; simp at hr⟩
  · have hfb : find_best_assignment m pilots drones ap ad = .ok none := by
      simp [find_best_assignment, hmp, hvd]
    rw [hfb]
    exact ⟨by simp, by intro r hr; simp at hr⟩
  · have hfb : find_best_assignment m pilots drones ap ad = .ok none := by
      simp [find_best_assignment, hmp, hvd]
    rw [hfb]
    exact ⟨by simp, by intro r hr; simp at hr⟩
  · have hfb : find_best_assignment m pilots drones ap ad =
        .ok (some { pilot := bp.pilot, drone := bd.drone, pilot_cost := bp.cost,
                    pilot_score := bp.score, drone_score := bd.score,
                    total_score := (bp.score + bd.score) / 2 }) := by
      simp [find_best_assignment, hmp, hvd]
    have hvd' : sortDescBy (fun c => c.score) (match_drones_pass m ad drones) = bd :: dt := by
      rw [← hvd]
      rfl
    have hmax := sortDescBy_head_max hvd'
    have hmin := sortAscBy_head_min (f := fun c => c.cost) (l := cands) hsorted.symm
    constructor
    · rw [hfb]
      simp
    · intro r hr
      rw [hfb] at hr
      simp only [Except.ok.injEq, Option.some.injEq] at hr
      subst hr
      refine ⟨rfl, ?_, ?_, ?_, ?_⟩
      · exact ⟨bp, List.mem_cons_self bp vt, rfl, rfl, rfl⟩
      · intro c hc
        have hc' : c ∈ cands := by
          rw [← mem_sortAscBy (f := fun c => c.cost), ← hsorted]
          exact hc
        exact hmin.2 c hc'
      · exact ⟨bd, List.mem_cons_self bd dt, rfl, rfl⟩
      · intro c hc
        have hc' : c ∈ match_drones_pass m ad drones := by
          rw [← mem_sortDescBy (f := fun c => c.score), hvd']
          exact hc
        exact hmax.2 c hc'

/-- The assignment `find_best_assignment` returns on the fixtures. -/
def bestFixture : BestAssignment :=
  { pilot := pAlice, drone := dHawk,
    pilot_cost := candAlice.cost,
    pilot_score := candAlice.score,
    drone_score := candHawk.score,
    total_score := (candAlice.score + candHawk.score) / 2 }

/-- Witness for C3 on the fixture mission, pilot and drone. -/
theorem find_best_assignment_correct_witness :
    bestFixture.total_score = (bestFixture.pilot_score + bestFixture.drone_score) / 2 ∧
    (∃ c ∈ [candAlice], c.pilot = bestFixture.pilot ∧ c.cost = bestFixture.pilot_cost ∧
      c.score = bestFixture.pilot_score) ∧
    (∀ c ∈ [candAlice], bestFixture.pilot_cost ≤ c.cost) ∧
    (∃ c ∈ match_drones mDates [dHawk] [], c.drone = bestFixture.drone ∧
      c.score = bestFixture.drone_score) ∧
    (∀ c ∈ match_drones mDates [dHawk] [], c.score ≤ bestFixture.drone_score) :=
  (find_best_assignment_correct mDates [pAlice] [dHawk] [] [] [candAlice]
    (by norm_num [match_pilots, match_pilots_pass, sortAscBy, insertAscBy, mission_duration_raw,
       mDates, pAlice, Pilot.is_available, Pilot.has_all_skills, Pilot.has_all_certifications,
       is_within_budget, calculate_pilot_cost, Pilot.daily_rate, Mission.budget, candAlice])).2
    bestFixture
    (by norm_num [find_best_assignment, match_pilots, match_pilots_pass, match_drones,
       match_drones_pass, sortAscBy, sortDescBy, insertAscBy, insertDescBy, mission_duration_raw,
       mDates, pAlice, dHawk, Pilot.is_available, Pilot.has_all_skills,
       Pilot.has_all_certifications, is_within_budget, calculate_pilot_cost, Pilot.daily_rate,
       Mission.budget, Drone.is_available, decision_weather_compatible, Drone.id,
       candAlice, candHawk, bestFixture])

/-! ## C1 helper lemmas — assignment manager invariant -/

/-- `dates_overlap` is symmetric in its two ranges. -/
theorem dates_overlap_symm (a b c d : Option ℤ) :
    dates_overlap a b c d = dates_overlap c d a b := by
  rcases a with _ | a <;> rcases b with _ | b <;>
    rcases c with _ | c <;> rcases d with _ | d <;>
    simp [dates_overlap, Bool.and_comm]

/-- Entries of the updated map are the new binding or untouched old
entries at other keys. -/
theorem mem_amSet {l : List (String × Option Assignment)} {k : String}
    {v : Option Assignment} {e : String × Option Assignment}
    (he : e ∈ amSet l k v) : e = (k, v) ∨ (e ∈ l ∧ e.1 ≠ k) := by
  unfold amSet at he
  split at he
  · obtain ⟨e0, he0, heq⟩ := List.mem_map.mp he
    by_cases h0 : e0.1 = k
    · left
      rw [← heq]
      simp [h0]
    · right
      rw [← heq]
      simp only [h0, if_false]
      exact ⟨he0, h0⟩
  · rename_i hany
    have hnotk : ∀ e' ∈ l, ¬ (e'.1 = k) := by
      intro e' he'
      intro hk
      exact hany (List.any_eq_true.mpr ⟨e', he', by simp [hk]⟩)
    rcases List.mem_append.mp he with h | h
    · exact Or.inr ⟨h, hnotk e h⟩
    · left
      simpa using h

/-- A live entry held by `p` contributes its mission to
`get_assigned_missions`. -/
theorem mission_mem_get_assigned {st : AMState} {k : String} {a : Assignment} {p : Pilot}
    (hmem : (k, some a) ∈ st.assignments) (hp : a.pilot = p) :
    a.mission ∈ get_assigned_missions st p := by
  unfold get_assigned_missions
  exact List.mem_filterMap.mpr ⟨(k, some a), hmem, by simp [hp]⟩

/-- A live entry held by drone `d` contributes its mission to
`get_assigned_missions_drone`. -/
theorem mission_mem_get_assigned_drone {st : AMState} {k : String} {a : Assignment} {d : Drone}
    (hmem : (k, some a) ∈ st.assignments) (hd : a.drone = d) :
    a.mission ∈ get_assigned_missions_drone st d := by
  unfold get_assigned_missions_drone
  exact List.mem_filterMap.mpr ⟨(k, some a), hmem, by simp [hd]⟩

/-- Unfolding of the pilot availability check. -/
theorem is_pilot_available_iff {st : AMState} {p : Pilot} {m : Mission} :
    is_pilot_available st p m = true ↔
    ∀ mm ∈ get_assigned_missions st p,
      dates_overlap m.start_date m.end_date mm.start_date mm.end_date = false := by
  simp [is_pilot_available, List.all_eq_true]

/-- Unfolding of the drone availability check. -/
theorem is_drone_available_iff {st : AMState} {d : Drone} {m : Mission} :
    is_drone_available st d m = true ↔
    ∀ mm ∈ get_assigned_missions_drone st d,
      dates_overlap m.start_date m.end_date mm.start_date mm.end_date = false := by
  simp [is_drone_available, List.all_eq_true]

/-- A successful `assign_mission` preserves the no-double-booking
invariant. -/
theorem assign_preserves_NDB {st : AMState} (m : Mission) (p : Pilot) (d : Drone)
    (hndb : NoDoubleBooking st) : NoDoubleBooking (assign_mission st m p d).1 := by
  unfold assign_mission
  split
  · exact hndb
  · split
    · exact hndb
    · rename_i hpav hdav
      rw [not_not] at hpav hdav
      intro k1 a1 k2 a2 h1 h2 hne
      simp only at h1 h2
      rcases mem_amSet h1 with hnew1 | ⟨hold1, hk1⟩ <;>
        rcases mem_amSet h2 with hnew2 | ⟨hold2, hk2⟩
      · rw [Prod.mk.injEq] at hnew1 hnew2
        exact absurd (hnew1.1.trans hnew2.1.symm) hne
      · rw [Prod.mk.injEq, Option.some.injEq] at hnew1
        obtain ⟨hk, ha⟩ := hnew1
        subst ha
        constructor
        · intro hp
          simp only at hp
          exact (is_pilot_available_iff.mp hpav) a2.mission
            (mission_mem_get_assigned hold2 hp.symm)
        · intro hd
          simp only at hd
          exact (is_drone_available_iff.mp hdav) a2.mission
            (mission_mem_get_assigned_drone hold2 hd.symm)
      · rw [Prod.mk.injEq, Option.some.injEq] at hnew2
        obtain ⟨hk, ha⟩ := hnew2
        subst ha
        constructor
        · intro hp
          simp only at hp
          rw [dates_overlap_symm]
          exact (is_pilot_available_iff.mp hpav) a1.mission
            (mission_mem_get_assigned hold1 hp)
        · intro hd
          simp only at hd
          rw [dates_overlap_symm]
          exact (is_drone_available_iff.mp hdav) a1.mission
            (mission_mem_get_assigned_drone hold1 hd)
      · exact hndb k1 a1 k2 a2 hold1 hold2 hne

/-- A successful `unassign_mission` preserves the invariant. -/
theorem unassign_preserves_NDB {st st' : AMState} {mid : String} {r : AMResult}
    (hndb : NoDoubleBooking st) (h : unassign_mission st mid = .ok (st', r)) :
    NoDoubleBooking st' := by
  unfold unassign_mission at h
  split at h
  · rw [Except.ok.injEq, Prod.mk.injEq] at h
    rw [← h.1]
    exact hndb
  · split at h
    · exact absurd h (by simp)
    · rw [Except.ok.injEq, Prod.mk.injEq] at h
      rw [← h.1]
      intro k1 a1 k2 a2 h1 h2 hne
      simp only at h1 h2
      rcases mem_amSet h1 with hnew1 | ⟨hold1, _⟩
      · exact absurd hnew1 (by simp)
      · rcases mem_amSet h2 with hnew2 | ⟨hold2, _⟩
        · exact absurd hnew2 (by simp)
        · exact hndb k1 a1 k2 a2 hold1 hold2 hne

/-- A successful `reassign_mission` preserves the invariant. -/
theorem reassign_preserves_NDB {st st' : AMState} {m : Mission} {p : Pilot} {d : Drone}
    {r : AMResult} (hndb : NoDoubleBooking st)
    (h : reassign_mission st m p d = .ok (st', r)) : NoDoubleBooking st' := by
  unfold reassign_mission at h
  split at h
  · split at h
    · exact absurd h (by simp)
    · rename_i st1 r1 hun
      rw [Except.ok.injEq] at h
      have h1 : NoDoubleBooking st1 := unassign_preserves_NDB hndb hun
      have h2 := assign_preserves_NDB m p d h1
      rw [h] at h2
      exact h2
  · rw [Except.ok.injEq] at h
    have h2 := assign_preserves_NDB m p d hndb
    rw [h] at h2
    exact h2

/-- Every reachable manager state satisfies the invariant. -/
theorem reachable_NDB {st : AMState} (h : Reachable st) : NoDoubleBooking st := by
  induction h with
  | init =>
    intro k1 a1 k2 a2 h1 h2 hne
    simp [AMState.init] at h1
  | assign st m p d hr ih => exact assign_preserves_NDB m p d ih
  | unassign st st' mid r hr heq ih => exact unassign_preserves_NDB ih heq
  | reassign st st' m p d r hr heq ih => exact reassign_preserves_NDB ih heq

/-! ## C1 — no double-booking -/

/-- C1: every state reachable through assign/unassign/reassign satisfies
the no-double-booking invariant, and an `assign_mission` whose pilot
(resp. drone) overlaps a live assignment returns the failure dict naming
that side and leaves the assignments map and history untouched. -/
theorem no_double_booking_invariant :
    (∀ st : AMState, Reachable st → NoDoubleBooking st) ∧
    (∀ (st : AMState) (m : Mission) (p : Pilot) (d : Drone),
      is_pilot_available st p m = false →
      assign_mission st m p d =
        (st, { success := false, reason := some "Pilot schedule conflict",
               mission := some m.id, pilot := some p.name })) ∧
    (∀ (st : AMState) (m : Mission) (p : Pilot) (d : Drone),
      is_pilot_available st p m = true → is_drone_available st d m = false →
      assign_mission st m p d =
        (st, { success := false, reason := some "Drone schedule conflict",
               mission := some m.id, drone := some d.id })) := by
  refine ⟨fun st h => reachable_NDB h, ?_, ?_⟩
  · intro st m p d h
    simp [assign_mission, h]
  · intro st m p d hp hd
    simp [assign_mission, hp, hd]

/-- An available pilot identical to the fixture pilot except for the name. -/
def pCara : Pilot :=
  { pAlice with
    name := "Cara" }

/-- A second mission over the same dates as the fixture mission. -/
def mOverlap : Mission :=
  { mDates with
    project_id := "M2" }

/-- Witness for C1: the state holding the fixture assignment satisfies
the invariant, and assigning an overlapping mission to the same pilot
(resp. the same drone under a fresh pilot) fails without mutating it. -/
theorem no_double_booking_invariant_witness :
    NoDoubleBooking stAssigned ∧
    assign_mission stAssigned mOverlap pAlice dHawk =
      (stAssigned, { success := false, reason := some "Pilot schedule conflict",
                     mission := some "M2", pilot := some "Alice" }) ∧
    assign_mission stAssigned mOverlap pCara dHawk =
      (stAssigned, { success := false, reason := some "Drone schedule conflict",
                     mission := some "M2", drone := some "D1" }) :=
  ⟨no_double_booking_invariant.1 stAssigned
     (Reachable.assign AMState.init mDates pAlice dHawk Reachable.init),
   no_double_booking_invariant.2.1 stAssigned mOverlap pAlice dHawk (by decide),
   no_double_booking_invariant.2.2 stAssigned mOverlap pCara dHawk (by decide) (by decide)⟩

/-! ## C6 — reassignment log appends -/

deriving instance DecidableEq for Except

/-- A low-priority mission (processed by the handler, NoAction outcome,
nothing logged). -/
def mLow : Mission :=
  { mDates with
    project_id := "M3",
    priority := "Low" }

/-- Counterexample to C6 as stated: the handler processes mission `M3`
(found, NoAction outcome) yet appends nothing to the reassignment log,
which stays empty. -/
theorem urgent_log_not_appended :
    handle_urgent_mission SvcState.init "M3" [] [] [mLow] true =
      .ok (SvcState.init,
        { status := "NO_ACTION", mission_id := "M3", priority := some "Low",
          conflicts := some [],
          reason := "Mission is not high or urgent priority - urgent reassignment not required" }) ∧
    SvcState.init.reassignment_log = [] :=
  ⟨by decide, rfl⟩

/-- C6 as amended: a normally-returning handler call appends exactly one
log entry when the outcome is Unassignable or Reassigned, or when it is
an Error raised inside the reassignment try-block; NoAction outcomes and
the unknown-mission-id Error append nothing. -/
theorem urgent_log_per_outcome :
    ∀ (st : SvcState) (mid : String) (pilots : List Pilot) (drones : List Drone)
      (missions : List Mission) (sheets : Bool) (st' : SvcState) (r : UResult),
      handle_urgent_mission st mid pilots drones missions sheets = .ok (st', r) →
      (r.status = "UNASSIGNABLE" ∨ r.status = "REASSIGNED" →
        st'.reassignment_log = st.reassignment_log ++ [r]) ∧
      (r.status = "NO_ACTION" → st'.reassignment_log = st.reassignment_log) ∧
      (missions.find? (fun m => m.project_id = mid) = none →
        r.status = "ERROR" ∧ st'.reassignment_log = st.reassignment_log) ∧
      (r.status = "ERROR" → missions.find? (fun m => m.project_id = mid) ≠ none →
        st'.reassignment_log = st.reassignment_log ++ [r]) := by
  intro st mid pilots drones missions sheets st' r h
  simp only [handle_urgent_mission] at h
  split at h
  · rename_i hfind
    rw [Except.ok.injEq, Prod.mk.injEq] at h
    obtain ⟨hst, hr⟩ := h
    subst hst
    subst hr
    exact ⟨by intro hc; simp at hc, by intro hc; simp at hc,
           fun _ => ⟨rfl, rfl⟩, fun _ hne => absurd hfind hne⟩
  · rename_i mission hfind
    split at h
    · rw [Except.ok.injEq, Prod.mk.injEq] at h
      obtain ⟨hst, hr⟩ := h
      subst hst
      subst hr
      exact ⟨by intro hc; simp at hc, fun _ => rfl,
             fun habs => absurd hfind (by simp [habs]), by intro hc; simp at hc⟩
    · split at h
      · exact absurd h (by simp)
      · rename_i validity hval
        split at h
        · rw [Except.ok.injEq, Prod.mk.injEq] at h
          obtain ⟨hst, hr⟩ := h
          subst hst
          subst hr
          exact ⟨by intro hc; simp at hc, fun _ => rfl,
                 fun habs => absurd hfind (by simp [habs]), by intro hc; simp at hc⟩
        · split at h
          · exact absurd h (by simp)
          · split at h
            · rw [Except.ok.injEq, Prod.mk.injEq] at h
              obtain ⟨hst, hr⟩ := h
              subst hst
              subst hr
              exact ⟨fun _ => rfl, by intro hc; simp at hc,
                     fun habs => absurd hfind (by simp [habs]), by intro hc; simp at hc⟩
            · split at h
              · exact absurd h (by simp)
              · rw [Except.ok.injEq, Prod.mk.injEq] at h
                obtain ⟨hst, hr⟩ := h
                subst hst
                subst hr
                exact ⟨fun _ => rfl, by intro hc; simp at hc,
                       fun habs => absurd hfind (by simp [habs]), by intro hc; simp at hc⟩
              · split at h
                · rw [Except.ok.injEq, Prod.mk.injEq] at h
                  obtain ⟨hst, hr⟩ := h
                  subst hst
                  subst hr
                  exact ⟨by intro hc; simp at hc, by intro hc; simp at hc,
                         fun habs => absurd hfind (by simp [habs]), fun _ _ => rfl⟩
                · rw [Except.ok.injEq, Prod.mk.injEq] at h
                  obtain ⟨hst, hr⟩ := h
                  subst hst
                  subst hr
                  exact ⟨fun _ => rfl, by intro hc; simp at hc,
                         fun habs => absurd hfind (by simp [habs]), by intro hc; simp at hc⟩

/-- A high-priority mission recorded as assigned to a pilot who no longer
exists in the pilot list. -/
def mMissingPilot : Mission :=
  { mDates with
    project_id := "M5",
    status := "Assigned",
    assigned_pilot := some "Ghost",
    assigned_drone := some "D9" }

/-- The UNASSIGNABLE log entry the handler writes for `mMissingPilot`
when no pilots or drones are supplied. -/
def rFix : UResult :=
  { status := "UNASSIGNABLE", mission_id := "M5", priority := some "High",
    previous_pilot := some (some "Ghost"), previous_drone := some (some "D9"),
    conflicts := some [VConflict.str "MISSING_PILOT"],
    reason := "No available pilots (0) or drones (0)" }

/-- The service state after that call. -/
def stFix : SvcState := { am := AMState.init, reassignment_log := [rFix] }

/-- Witness for C6 (amended): the concrete UNASSIGNABLE run appends
exactly its one entry. -/
theorem urgent_log_per_outcome_witness :
    stFix.reassignment_log = SvcState.init.reassignment_log ++ [rFix] :=
  (urgent_log_per_outcome SvcState.init "M5" [] [] [mMissingPilot] true stFix rFix
    (by decide)).1 (Or.inl rfl)

/-! ## C9 — batch entry point -/

/-- The batch loop yields one result per selected mission. -/
theorem run_urgent_batch_length {pilots : List Pilot} {drones : List Drone}
    {missions : List Mission} {sheets : Bool} :
    ∀ (ms : List Mission) (st st' : SvcState) (rs : List UResult),
      run_urgent_batch st pilots drones missions sheets ms = .ok (st', rs) →
      rs.length = ms.length := by
  intro ms
  induction ms with
  | nil =>
    intro st st' rs h
    simp only [run_urgent_batch, Except.ok.injEq, Prod.mk.injEq] at h
    rw [← h.2]
    rfl
  | cons m rest ih =>
    intro st st' rs h
    unfold run_urgent_batch at h
    split at h
    · exact absurd h (by simp)
    · rename_i st1 r1 hone
      split at h
      · exact absurd h (by simp)
      · rename_i st2 rs2 hrest
        rw [Except.ok.injEq, Prod.mk.injEq] at h
        rw [← h.2]
        simp [ih st1 st2 rs2 hrest]

/-- C9: the batch entry point selects exactly the missions whose
lower-cased priority is "high" (an Urgent mission is not selected even
though the single-mission gate accepts it), runs the per-mission handler
over that selection, and reports total_checked and per-status counts that
tally the per-mission result list. -/
theorem batch_high_priority_behaviour :
    (∀ (st : SvcState) (pilots : List Pilot) (drones : List Drone)
       (missions : List Mission) (sheets : Bool) (st' : SvcState) (s : BatchSummary),
      handle_all_high_priority_missions st pilots drones missions sheets = .ok (st', s) →
      s.total_checked = (missions.filter is_batch_high_priority).length ∧
      s.results.length = (missions.filter is_batch_high_priority).length ∧
      s.reassigned = (s.results.filter (fun r => r.status = "REASSIGNED")).length ∧
      s.unassignable = (s.results.filter (fun r => r.status = "UNASSIGNABLE")).length ∧
      s.no_action = (s.results.filter (fun r => r.status = "NO_ACTION")).length ∧
      s.errors = (s.results.filter (fun r => r.status = "ERROR")).length ∧
      run_urgent_batch st pilots drones missions sheets
        (missions.filter is_batch_high_priority) = .ok (st', s.results)) ∧
    (∀ m : Mission, m.priority = "Urgent" → is_batch_high_priority m = false) ∧
    (∀ m : Mission, m.priority = "Urgent" → urgent_priority_eligible m = true) := by
  refine ⟨?_, ?_, ?_⟩
  · intro st pilots drones missions sheets st' s h
    simp only [handle_all_high_priority_missions] at h
    split at h
    · exact absurd h (by simp)
    · rename_i st2 results hrun
      rw [Except.ok.injEq, Prod.mk.injEq] at h
      obtain ⟨hst, hs⟩ := h
      subst hst
      subst hs
      refine ⟨rfl, ?_, rfl, rfl, rfl, rfl, hrun⟩
      exact run_urgent_batch_length _ st _ results hrun
  · intro m hm
    simp [is_batch_high_priority, str_lower, hm]
  · intro m hm
    simp [urgent_priority_eligible, str_lower, hm]

/-- The NO_ACTION result the handler returns for the (validly unassigned)
fixture mission in the batch run. -/
def rHighNoAction : UResult :=
  { status := "NO_ACTION", mission_id := "M1", priority := some "High",
    assigned_pilot := some none, assigned_drone := some none,
    conflicts := some [],
    reason := "Mission is unassigned (not yet assigned)" }

/-- The summary the batch scan produces over `[mLow, mDates]`: only the
High mission is checked; the Low one is skipped. -/
def batchSummaryFix : BatchSummary :=
  { total_checked := 1, reassigned := 0, unassignable := 0, no_action := 1,
    errors := 0, results := [rHighNoAction] }

/-- A mission with priority Urgent. -/
def mUrgent : Mission :=
  { mDates with
    project_id := "M4",
    priority := "Urgent" }

/-- Witness for C9 on a concrete batch run, plus the Urgent-priority
asymmetry between the batch filter and the single-mission gate. -/
theorem batch_high_priority_behaviour_witness :
    (batchSummaryFix.total_checked =
       ([mLow, mDates].filter is_batch_high_priority).length ∧
     batchSummaryFix.results.length =
       ([mLow, mDates].filter is_batch_high_priority).length ∧
     batchSummaryFix.reassigned =
       (batchSummaryFix.results.filter (fun r => r.status = "REASSIGNED")).length ∧
     batchSummaryFix.unassignable =
       (batchSummaryFix.results.filter (fun r => r.status = "UNASSIGNABLE")).length ∧
     batchSummaryFix.no_action =
       (batchSummaryFix.results.filter (fun r => r.status = "NO_ACTION")).length ∧
     batchSummaryFix.errors =
       (batchSummaryFix.results.filter (fun r => r.status = "ERROR")).length ∧
     run_urgent_batch SvcState.init [] [] [mLow, mDates] true
       ([mLow, mDates].filter is_batch_high_priority) =
         .ok (SvcState.init, batchSummaryFix.results)) ∧
    is_batch_high_priority mUrgent = false ∧
    urgent_priority_eligible mUrgent = true :=
  ⟨batch_high_priority_behaviour.1 SvcState.init [] [] [mLow, mDates] true
     SvcState.init batchSummaryFix (by decide),
   batch_high_priority_behaviour.2.1 mUrgent rfl,
   batch_high_priority_behaviour.2.2 mUrgent rfl⟩
